import Mathlib

/-!
Verification of the epidemic engine in `simulation.py` (Simple-Epidemic).

The Python module is embedded shallowly:
* floats become rationals (`ℚ`); all claims treated here depend only on exact
  field arithmetic on dyadic inputs, never on rounding;
* the ambient random generators (`random.random`, `random.uniform`,
  `np.random.normal`, `np.random.gamma`) become oracles of draw outcomes,
  supplied per agent; a normal draw `np.random.normal(m, s)` is modelled as
  `m + s * z` with `z` the oracle value, so a zero-std draw is exactly `m`;
* the mutable `Agent` objects become records; the in-place loops of
  `EpidemicSimulation.step` become explicit threading of the agent list, with
  the processing order an explicit parameter (the code uses list order,
  `List.range`).
-/

namespace Epidemic

/-- Disease states of an agent, the string field `Agent.state` of the Python
code restricted to its five used values `"S" "E" "I" "R" "D"`. -/
inductive SState where
  | S
  | E
  | I
  | R
  | D
deriving DecidableEq, Repr

/-- `SimulationConfig` from `simulation.py`, with the Python defaults.
`N` is an `int`; every float field becomes a rational. -/
structure SimulationConfig where
  N : ℤ := 200
  grid_size : ℚ := 100
  beta : ℚ := 1
  incubation_mean : ℚ := 5
  incubation_std : ℚ := 2
  infectious_mean : ℚ := 7
  infectious_std : ℚ := 3
  mortality_rate : ℚ := 2 / 100
  vax_rate : ℚ := 0
  interaction_radius : ℚ := 2
  dt : ℚ := 1 / 2
  home_attraction : ℚ := 5 / 100
  random_force : ℚ := 1
  isolation_compliance : ℚ := 0
  detection_prob : ℚ := 0
deriving DecidableEq, Repr

/-- The `Agent` dataclass.  Python initialises `next_state` to `None`; since
`step` always overwrites it in its decide loop before the commit loop reads
it, we give it the definite default `S`. -/
structure Agent where
  id : ℕ
  x : ℚ
  y : ℚ
  vx : ℚ
  vy : ℚ
  home_x : ℚ
  home_y : ℚ
  infectiousness : ℚ := 1
  susceptibility : ℚ := 1
  state : SState := SState.S
  state_timer : ℚ := 0
  days_in_state : ℚ := 0
  is_isolated : Bool := false
  next_state : SState := SState.S
  next_timer : ℚ := 0
deriving DecidableEq, Repr

/-- Outcomes of the random draws one agent can consume inside one `step()`:
the two `random.uniform(-1, 1)` draws of `Agent.move`, the vaccination roll,
the transmission roll and incubation-period normal draw of each successive
transmission check (indexed by the number of transmission rolls made so far),
the infectious-period normal draw, and the detection, compliance and
mortality rolls. -/
structure AgentStepRand where
  move_ux : ℚ := 0
  move_uy : ℚ := 0
  vax_roll : ℚ := 1
  trans_roll : ℕ → ℚ := fun _ => 1
  incub_z : ℕ → ℚ := fun _ => 0
  infect_z : ℚ := 0
  detect_roll : ℚ := 1
  comply_roll : ℚ := 1
  mort_roll : ℚ := 1

/-- Outcomes of the random draws `init_agents` consumes for one agent:
position, velocity, the infectious-period normal draw for patient zero, the
gamma draw for infectiousness and the uniform draw for susceptibility. -/
structure AgentInitRand where
  ux : ℚ := 0
  uy : ℚ := 0
  uvx : ℚ := 0
  uvy : ℚ := 0
  inf_z : ℚ := 0
  gamma_d : ℚ := 1
  susc_u : ℚ := 1

/-- Python's `int()` applied to a rational: truncation toward zero. -/
def ratTrunc (q : ℚ) : ℤ :=
  if 0 ≤ q then ⌊q⌋ else ⌈q⌉

/-- `Agent.move` from `simulation.py`: skipped for deceased or isolated
agents; otherwise home attraction, random walk, damping, position update and
reflecting boundary checks, in that order.  `ux`, `uy` are the two
`random.uniform(-1, 1)` outcomes. -/
def Agent.move (a : Agent) (grid_size dt home_attraction random_force ux uy : ℚ) : Agent :=
  if a.state = SState.D ∨ a.is_isolated then a
  else
    let vx := a.vx + (a.home_x - a.x) * home_attraction * dt
    let vy := a.vy + (a.home_y - a.y) * home_attraction * dt
    let vx := vx + ux * random_force * dt
    let vy := vy + uy * random_force * dt
    let vx := vx * (95 / 100)
    let vy := vy * (95 / 100)
    let x := a.x + vx * dt
    let y := a.y + vy * dt
    let xr := if x < 0 then (-x, -vx) else if x > grid_size then (2 * grid_size - x, -vx) else (x, vx)
    let yr := if y < 0 then (-y, -vy) else if y > grid_size then (2 * grid_size - y, -vy) else (y, vy)
    { a with x := xr.1, vx := xr.2, y := yr.1, vy := yr.2 }

/-- `grid_cell_size = max(self.config.interaction_radius, 1.0)`. -/
def cellSize (cfg : SimulationConfig) : ℚ :=
  max cfg.interaction_radius 1

/-- Cell key of a position: `(int(x / grid_cell_size), int(y / grid_cell_size))`. -/
def cellOf (cfg : SimulationConfig) (x y : ℚ) : ℤ × ℤ :=
  (ratTrunc (x / cellSize cfg), ratTrunc (y / cellSize cfg))

/-- The spatial grid of `step()`: indices (list positions, standing in for
the Python object references) of the non-deceased agents whose position lies
in cell `c`, in list order (the insertion order of the Python build loop).
A cell absent from the Python dict is exactly a cell with the empty list. -/
def gridIds (cfg : SimulationConfig) (agents : List Agent) (c : ℤ × ℤ) : List ℕ :=
  (List.range agents.length).filter fun i =>
    (agents[i]?).any fun a => a.state != SState.D && cellOf cfg a.x a.y == c

/-- Accumulator of the transmission scan of a susceptible agent: pending
state, pending timer, new-infection count contributed so far, and the number
of transmission Bernoulli rolls made so far (indexing the oracle). -/
structure ScanAcc where
  st : SState
  tm : ℚ
  ni : ℕ
  k : ℕ
deriving DecidableEq, Repr

/-- Scan of one grid cell's occupant list by susceptible agent `a`
(the innermost `for neighbor in grid[(ncx, ncy)]` loop): each non-isolated
infectious neighbor within the interaction radius costs one Bernoulli roll
with probability `beta * neighbor.infectiousness * a.susceptibility * dt`;
the first success in this cell sets the pending state to `E`, samples the
incubation timer and increments the counter, and `break`s out of this cell's
list. -/
def scanCell (cfg : SimulationConfig) (r : AgentStepRand) (agents : List Agent) (a : Agent) :
    List ℕ → ScanAcc → ScanAcc
  | [], acc => acc
  | j :: rest, acc =>
    match agents[j]? with
    | none => scanCell cfg r agents a rest acc
    | some nb =>
      if nb.state = SState.I ∧ nb.is_isolated = false then
        if (a.x - nb.x) ^ 2 + (a.y - nb.y) ^ 2 ≤ cfg.interaction_radius ^ 2 then
          if r.trans_roll acc.k < cfg.beta * nb.infectiousness * a.susceptibility * cfg.dt then
            ⟨SState.E, max 0 (cfg.incubation_mean + cfg.incubation_std * r.incub_z acc.k),
              acc.ni + 1, acc.k + 1⟩
          else scanCell cfg r agents a rest ⟨acc.st, acc.tm, acc.ni, acc.k + 1⟩
        else scanCell cfg r agents a rest acc
      else scanCell cfg r agents a rest acc

/-- The `for dx in [-1, 0, 1]` loop of the transmission scan: each column
`dx` scans its three cells `(cx+dx, cy-1), (cx+dx, cy), (cx+dx, cy+1)` in
full (the Python `break` of a success only exits the current cell's
occupant list), and after a column completes, `if agent.next_state == "E":
break` stops before the next column. -/
def scanColumns (cfg : SimulationConfig) (r : AgentStepRand) (agents : List Agent) (a : Agent)
    (grid : ℤ × ℤ → List ℕ) (cx cy : ℤ) : List ℤ → ScanAcc → ScanAcc
  | [], acc => acc
  | dx :: rest, acc =>
    let acc := scanCell cfg r agents a (grid (cx + dx, cy + -1)) acc
    let acc := scanCell cfg r agents a (grid (cx + dx, cy + 0)) acc
    let acc := scanCell cfg r agents a (grid (cx + dx, cy + 1)) acc
    if acc.st = SState.E then acc else scanColumns cfg r agents a grid cx cy rest acc

/-- One iteration body of the `# 3. Determine Next States` loop of `step()`
for agent `a`: returns the updated agent together with its contributions to
`new_infections` and `current_infectious_agents`.  `agents` is the threaded
list the neighbor lookups read (the live objects of the Python loop); `grid`
is the index built before the loop.  The only fields the body writes are the
agent's own `next_state`, `next_timer` and `is_isolated`. -/
def decideAgent (cfg : SimulationConfig) (r : AgentStepRand) (grid : ℤ × ℤ → List ℕ)
    (agents : List Agent) (a : Agent) : Agent × ℕ × ℕ :=
  let a := { a with next_state := a.state, next_timer := a.state_timer }
  match a.state with
  | SState.D => (a, 0, 0)
  | SState.S =>
    if r.vax_roll < cfg.vax_rate * cfg.dt then
      ({ a with next_state := SState.R }, 0, 0)
    else
      let c := cellOf cfg a.x a.y
      let acc := scanColumns cfg r agents a grid c.1 c.2 [-1, 0, 1]
        ⟨a.next_state, a.next_timer, 0, 0⟩
      ({ a with next_state := acc.st, next_timer := acc.tm }, acc.ni, 0)
  | SState.E =>
    let a := { a with next_timer := a.next_timer - cfg.dt }
    if a.next_timer ≤ 0 then
      let a := { a with next_state := SState.I,
                        next_timer := max 0 (cfg.infectious_mean + cfg.infectious_std * r.infect_z) }
      if r.detect_roll < cfg.detection_prob then
        if r.comply_roll < cfg.isolation_compliance then
          ({ a with is_isolated := true }, 0, 0)
        else (a, 0, 0)
      else (a, 0, 0)
    else (a, 0, 0)
  | SState.I =>
    let a := { a with next_timer := a.next_timer - cfg.dt }
    if a.next_timer ≤ 0 then
      if r.mort_roll < cfg.mortality_rate then
        ({ a with next_state := SState.D, is_isolated := false }, 0, 1)
      else
        ({ a with next_state := SState.R, is_isolated := false }, 0, 1)
    else (a, 0, 1)
  | SState.R => (a, 0, 0)

/-- The `# 3. Determine Next States` loop of `step()` over an explicit
processing order of agent indices (the code processes `List.range` of the
list length), threading the mutable agent list and the two step-scoped
counters.  The order is a parameter so that order permutation is statable. -/
def phaseA (cfg : SimulationConfig) (rand : ℕ → AgentStepRand) (grid : ℤ × ℤ → List ℕ) :
    List ℕ → List Agent → ℕ → ℕ → List Agent × ℕ × ℕ
  | [], agents, ni, ci => (agents, ni, ci)
  | i :: rest, agents, ni, ci =>
    match agents[i]? with
    | none => phaseA cfg rand grid rest agents ni ci
    | some a =>
      let d := decideAgent cfg (rand a.id) grid agents a
      phaseA cfg rand grid rest (agents.set i d.1) (ni + d.2.1) (ci + d.2.2)

/-- One iteration of the `# 4. Apply Updates` loop of `step()`. -/
def commitAgent (dt : ℚ) (a : Agent) : Agent :=
  if a.state ≠ a.next_state then
    { a with state := a.next_state, state_timer := a.next_timer, days_in_state := 0 }
  else
    { a with state_timer := a.next_timer, days_in_state := a.days_in_state + dt }

/-- `EpidemicSimulation`: agent list, per-state count histories and the
reproduction-number history.  The `stats` dict becomes a function from state
to its list. -/
structure Simulation where
  config : SimulationConfig
  agents : List Agent
  stats : SState → List ℕ
  rt_history : List ℚ

/-- Number of agents of a list in state `s` (the `counts` tally of
`update_stats`). -/
def countState (agents : List Agent) (s : SState) : ℕ :=
  (agents.filter fun a => a.state = s).length

/-- `update_stats`: append the five per-state counts, then append the
reproduction-number estimate. -/
def updateStats (sim : Simulation) (new_infections current_infectious_agents : ℕ) : Simulation :=
  { sim with
    stats := fun s => sim.stats s ++ [countState sim.agents s]
    rt_history := sim.rt_history ++
      [if 0 < current_infectious_agents then
          (new_infections : ℚ) / sim.config.dt / (current_infectious_agents : ℚ)
            * sim.config.infectious_mean
        else 0] }

/-- `EpidemicSimulation.step`: move all agents, rebuild the spatial grid from
the moved positions excluding the deceased, run the decide loop in list
order, commit all pending updates, then record stats. -/
def stepSim (rand : ℕ → AgentStepRand) (sim : Simulation) : Simulation :=
  let cfg := sim.config
  let moved := sim.agents.map fun a =>
    a.move cfg.grid_size cfg.dt cfg.home_attraction cfg.random_force
      (rand a.id).move_ux (rand a.id).move_uy
  let grid := gridIds cfg moved
  let res := phaseA cfg rand grid (List.range moved.length) moved 0 0
  updateStats { sim with agents := res.1.map (commitAgent cfg.dt) } res.2.1 res.2.2

/-- The step-scoped `(new_infections, current_infectious_agents)` counters
of one `step()`, as an observer of the same decide loop `stepSim` runs. -/
def stepCounters (rand : ℕ → AgentStepRand) (sim : Simulation) : ℕ × ℕ :=
  let cfg := sim.config
  let moved := sim.agents.map fun a =>
    a.move cfg.grid_size cfg.dt cfg.home_attraction cfg.random_force
      (rand a.id).move_ux (rand a.id).move_uy
  (phaseA cfg rand (gridIds cfg moved) (List.range moved.length) moved 0 0).2

/-- Agent `i` as `init_agents` builds it: home at the sampled position,
sampled velocity and heterogeneity scalars; agent `0` (the single
`num_infected = 1` seed) starts infectious with a zero-truncated normal
infectious-period timer, every other agent starts susceptible with zero
timer. -/
def initAgent (cfg : SimulationConfig) (r : AgentInitRand) (i : ℕ) : Agent :=
  { id := i, x := r.ux, y := r.uy, vx := r.uvx, vy := r.uvy,
    home_x := r.ux, home_y := r.uy,
    infectiousness := r.gamma_d, susceptibility := r.susc_u,
    state := if i < 1 then SState.I else SState.S,
    state_timer := if i < 1 then max 0 (cfg.infectious_mean + cfg.infectious_std * r.inf_z) else 0 }

/-- `EpidemicSimulation.__init__`: build the `N` agents of `init_agents` and
record the initial stats snapshot (`update_stats()` with both counters 0).
The constructor performs no validation of the config. -/
def simInit (cfg : SimulationConfig) (rand : ℕ → AgentInitRand) : Simulation :=
  updateStats
    { config := cfg,
      agents := (List.range cfg.N.toNat).map fun i => initAgent cfg (rand i) i,
      stats := fun _ => [], rt_history := [] } 0 0

/-- `n` consecutive `step()` calls, step `k` consuming the draws `sr k`. -/
def stepN (sr : ℕ → ℕ → AgentStepRand) : ℕ → Simulation → Simulation
  | 0, sim => sim
  | n + 1, sim => stepSim (sr n) (stepN sr n sim)

/-- A whole run: construction followed by `n` steps. -/
def runSim (cfg : SimulationConfig) (ir : ℕ → AgentInitRand) (sr : ℕ → ℕ → AgentStepRand)
    (n : ℕ) : Simulation :=
  stepN sr n (simInit cfg ir)

/-- Modelled from the spec (§7 Error handling, a check absent from the
code): a config the spec calls valid — positive population, probability
fields inside `[0,1]`, positive period means and stds, positive grid
extent. -/
def specValidConfig (cfg : SimulationConfig) : Prop :=
  0 < cfg.N ∧
  (0 ≤ cfg.mortality_rate ∧ cfg.mortality_rate ≤ 1) ∧
  (0 ≤ cfg.vax_rate ∧ cfg.vax_rate ≤ 1) ∧
  (0 ≤ cfg.detection_prob ∧ cfg.detection_prob ≤ 1) ∧
  (0 ≤ cfg.isolation_compliance ∧ cfg.isolation_compliance ≤ 1) ∧
  0 < cfg.incubation_mean ∧ 0 < cfg.incubation_std ∧
  0 < cfg.infectious_mean ∧ 0 < cfg.infectious_std ∧
  0 < cfg.grid_size

instance (cfg : SimulationConfig) : Decidable (specValidConfig cfg) := by
  unfold specValidConfig; infer_instance

/-! ### Field-preservation helpers -/

theorem move_D (a : Agent) (gs dt ha rf ux uy : ℚ) (h : a.state = SState.D) :
    a.move gs dt ha rf ux uy = a := by
  unfold Agent.move
  rw [if_pos (Or.inl h)]

theorem move_state (a : Agent) (gs dt ha rf ux uy : ℚ) :
    (a.move gs dt ha rf ux uy).state = a.state := by
  unfold Agent.move
  split <;> rfl

theorem move_isolated (a : Agent) (gs dt ha rf ux uy : ℚ) :
    (a.move gs dt ha rf ux uy).is_isolated = a.is_isolated := by
  unfold Agent.move
  split <;> rfl

theorem move_id (a : Agent) (gs dt ha rf ux uy : ℚ) :
    (a.move gs dt ha rf ux uy).id = a.id := by
  unfold Agent.move
  split <;> rfl

theorem move_timer (a : Agent) (gs dt ha rf ux uy : ℚ) :
    (a.move gs dt ha rf ux uy).state_timer = a.state_timer := by
  unfold Agent.move
  split <;> rfl

theorem commitAgent_state (dt : ℚ) (a : Agent) :
    (commitAgent dt a).state = a.next_state := by
  unfold commitAgent
  split
  · rfl
  · next h => simpa using (not_not.mp (by simpa using h))

theorem commitAgent_timer (dt : ℚ) (a : Agent) :
    (commitAgent dt a).state_timer = a.next_timer := by
  unfold commitAgent
  split <;> rfl

theorem commitAgent_isolated (dt : ℚ) (a : Agent) :
    (commitAgent dt a).is_isolated = a.is_isolated := by
  unfold commitAgent
  split <;> rfl

theorem commitAgent_x (dt : ℚ) (a : Agent) :
    (commitAgent dt a).x = a.x := by
  unfold commitAgent
  split <;> rfl

theorem commitAgent_y (dt : ℚ) (a : Agent) :
    (commitAgent dt a).y = a.y := by
  unfold commitAgent
  split <;> rfl

theorem commitAgent_vx (dt : ℚ) (a : Agent) :
    (commitAgent dt a).vx = a.vx := by
  unfold commitAgent
  split <;> rfl

theorem commitAgent_vy (dt : ℚ) (a : Agent) :
    (commitAgent dt a).vy = a.vy := by
  unfold commitAgent
  split <;> rfl

/-- The decide body writes only the agent's own `next_state`, `next_timer`
and `is_isolated`: every committed field survives it unchanged. -/
theorem decideAgent_committed (cfg : SimulationConfig) (r : AgentStepRand)
    (grid : ℤ × ℤ → List ℕ) (agents : List Agent) (a : Agent) :
    (decideAgent cfg r grid agents a).1.state = a.state ∧
    (decideAgent cfg r grid agents a).1.state_timer = a.state_timer ∧
    (decideAgent cfg r grid agents a).1.x = a.x ∧
    (decideAgent cfg r grid agents a).1.y = a.y ∧
    (decideAgent cfg r grid agents a).1.vx = a.vx ∧
    (decideAgent cfg r grid agents a).1.vy = a.vy ∧
    (decideAgent cfg r grid agents a).1.infectiousness = a.infectiousness ∧
    (decideAgent cfg r grid agents a).1.susceptibility = a.susceptibility ∧
    (decideAgent cfg r grid agents a).1.id = a.id ∧
    (decideAgent cfg r grid agents a).1.days_in_state = a.days_in_state := by
  unfold decideAgent
  cases h : a.state <;> simp [h] <;> split_ifs <;> simp

/-- A non-susceptible agent's decide body never reads the threaded agent
list (only the transmission scan of a susceptible agent does), so its
decision is independent of it. -/
theorem decideAgent_nonS (cfg : SimulationConfig) (r : AgentStepRand)
    (grid : ℤ × ℤ → List ℕ) (agents agents' : List Agent) (a : Agent)
    (h : a.state ≠ SState.S) :
    decideAgent cfg r grid agents a = decideAgent cfg r grid agents' a := by
  unfold decideAgent
  cases hs : a.state <;> simp [hs] at h ⊢

/-- Deciding a deceased agent only refreshes its pending fields. -/
theorem decideAgent_D (cfg : SimulationConfig) (r : AgentStepRand)
    (grid : ℤ × ℤ → List ℕ) (agents : List Agent) (a : Agent) (h : a.state = SState.D) :
    decideAgent cfg r grid agents a =
      ({ a with next_state := SState.D, next_timer := a.state_timer }, 0, 0) := by
  unfold decideAgent
  simp [h]

/-! ### Decide-loop (phase A) helpers -/

/-- The agent list after the `# 1. Move agents` loop of one `step()`. -/
def movedAgents (rand : ℕ → AgentStepRand) (sim : Simulation) : List Agent :=
  sim.agents.map fun a =>
    a.move sim.config.grid_size sim.config.dt sim.config.home_attraction
      sim.config.random_force (rand a.id).move_ux (rand a.id).move_uy

theorem stepSim_agents (rand : ℕ → AgentStepRand) (sim : Simulation) :
    (stepSim rand sim).agents =
      (phaseA sim.config rand (gridIds sim.config (movedAgents rand sim))
        (List.range (movedAgents rand sim).length) (movedAgents rand sim) 0 0).1.map
        (commitAgent sim.config.dt) := rfl

theorem stepSim_config (rand : ℕ → AgentStepRand) (sim : Simulation) :
    (stepSim rand sim).config = sim.config := rfl

theorem phaseA_length (cfg : SimulationConfig) (rand : ℕ → AgentStepRand)
    (grid : ℤ × ℤ → List ℕ) :
    ∀ (order : List ℕ) (agents : List Agent) (ni ci : ℕ),
      (phaseA cfg rand grid order agents ni ci).1.length = agents.length := by
  intro order
  induction order with
  | nil => intro agents ni ci; rfl
  | cons j rest ih =>
    intro agents ni ci
    unfold phaseA
    cases h : agents[j]? with
    | none => exact ih agents ni ci
    | some a => rw [ih]; exact List.length_set ..

theorem phaseA_getElem_not_mem (cfg : SimulationConfig) (rand : ℕ → AgentStepRand)
    (grid : ℤ × ℤ → List ℕ) :
    ∀ (order : List ℕ) (agents : List Agent) (ni ci i : ℕ), i ∉ order →
      (phaseA cfg rand grid order agents ni ci).1[i]? = agents[i]? := by
  intro order
  induction order with
  | nil => intro agents ni ci i _; rfl
  | cons j rest ih =>
    intro agents ni ci i hi
    have hij : i ≠ j := fun h => hi (h ▸ List.mem_cons_self ..)
    have hir : i ∉ rest := fun h => hi (List.mem_cons_of_mem _ h)
    unfold phaseA
    cases h : agents[j]? with
    | none => exact ih agents ni ci i hir
    | some a => rw [ih _ _ _ _ hir, List.getElem?_set_ne hij.symm]

/-- Processing reaches index `i` exactly once (`Nodup`), and when the agent
at `i` is not susceptible its decision ignores the threaded list, so the
loop leaves at `i` precisely its own decision on the pre-loop list. -/
theorem phaseA_getElem_nonS (cfg : SimulationConfig) (rand : ℕ → AgentStepRand)
    (grid : ℤ × ℤ → List ℕ) :
    ∀ (order : List ℕ) (agents : List Agent) (ni ci i : ℕ) (a : Agent),
      order.Nodup → i ∈ order → agents[i]? = some a → a.state ≠ SState.S →
      (phaseA cfg rand grid order agents ni ci).1[i]? =
        some (decideAgent cfg (rand a.id) grid agents a).1 := by
  intro order
  induction order with
  | nil => intro agents ni ci i a _ hmem; cases hmem
  | cons j rest ih =>
    intro agents ni ci i a hnd hmem hget hS
    have hjr : j ∉ rest := (List.nodup_cons.mp hnd).1
    have hndr : rest.Nodup := (List.nodup_cons.mp hnd).2
    rcases List.mem_cons.mp hmem with hij | hir
    · subst hij
      unfold phaseA
      rw [hget]
      have hlt : i < agents.length := (List.getElem?_eq_some.mp hget).1
      rw [phaseA_getElem_not_mem cfg rand grid rest _ _ _ _ hjr,
        List.getElem?_set_self (by simpa using hlt)]
    · have hij : i ≠ j := fun h => hjr (h ▸ hir)
      unfold phaseA
      cases h : agents[j]? with
      | none => exact ih agents ni ci i a hndr hir hget hS
      | some b =>
        rw [ih _ _ _ _ _ hndr hir (by rw [List.getElem?_set_ne hij.symm]; exact hget) hS,
          decideAgent_nonS cfg (rand a.id) grid _ agents a hS]

/-- One `step()` leaves a deceased agent's state, timer, position, velocity
and isolation flag untouched (it only refreshes the scratch pending fields
and advances `days_in_state`). -/
theorem stepSim_D_fields (rand : ℕ → AgentStepRand) (sim : Simulation) (i : ℕ) (a : Agent)
    (hget : sim.agents[i]? = some a) (hD : a.state = SState.D) :
    ∃ b, (stepSim rand sim).agents[i]? = some b ∧ b.state = SState.D ∧
      b.state_timer = a.state_timer ∧ b.x = a.x ∧ b.y = a.y ∧ b.vx = a.vx ∧ b.vy = a.vy ∧
      b.is_isolated = a.is_isolated := by
  have hlt : i < sim.agents.length := (List.getElem?_eq_some.mp hget).1
  have hmget : (movedAgents rand sim)[i]? = some a := by
    rw [movedAgents, List.getElem?_map, hget, Option.map_some']
    rw [move_D a _ _ _ _ _ _ hD]
  have hlen : i < (movedAgents rand sim).length := by
    simpa [movedAgents] using hlt
  have hdec := phaseA_getElem_nonS sim.config rand (gridIds sim.config (movedAgents rand sim))
    (List.range (movedAgents rand sim).length) (movedAgents rand sim) 0 0 i a
    (List.nodup_range _) (List.mem_range.mpr hlen) hmget (by simp [hD])
  rw [decideAgent_D _ _ _ _ _ hD] at hdec
  refine ⟨commitAgent sim.config.dt
    { a with next_state := SState.D, next_timer := a.state_timer }, ?_, ?_⟩
  · rw [stepSim_agents, List.getElem?_map, hdec, Option.map_some']
  · refine ⟨?_, ?_, ?_, ?_, ?_, ?_, ?_⟩ <;>
      simp [commitAgent_state, commitAgent_timer, commitAgent_x, commitAgent_y,
        commitAgent_vx, commitAgent_vy, commitAgent_isolated]

/-! ### Stats and conservation helpers -/

theorem updateStats_agents (sim : Simulation) (ni ci : ℕ) :
    (updateStats sim ni ci).agents = sim.agents := rfl

theorem updateStats_stats (sim : Simulation) (ni ci : ℕ) (s : SState) :
    (updateStats sim ni ci).stats s = sim.stats s ++ [countState sim.agents s] := rfl

theorem updateStats_rt (sim : Simulation) (ni ci : ℕ) :
    (updateStats sim ni ci).rt_history = sim.rt_history ++
      [if 0 < ci then (ni : ℚ) / sim.config.dt / (ci : ℚ) * sim.config.infectious_mean
        else 0] := rfl

theorem stepSim_stats (rand : ℕ → AgentStepRand) (sim : Simulation) (s : SState) :
    (stepSim rand sim).stats s =
      sim.stats s ++ [countState (stepSim rand sim).agents s] := rfl

theorem simInit_stats (cfg : SimulationConfig) (ir : ℕ → AgentInitRand) (s : SState) :
    (simInit cfg ir).stats s = [countState (simInit cfg ir).agents s] := rfl

/-- Each agent is in exactly one of the five states, so the five per-state
tallies of `update_stats` partition the agent list. -/
theorem countState_partition (agents : List Agent) :
    countState agents SState.S + countState agents SState.E + countState agents SState.I +
      countState agents SState.R + countState agents SState.D = agents.length := by
  induction agents with
  | nil => rfl
  | cons a rest ih =>
    unfold countState at *
    cases h : a.state <;> simp [List.filter_cons, h] <;> omega

theorem stepSim_length (rand : ℕ → AgentStepRand) (sim : Simulation) :
    (stepSim rand sim).agents.length = sim.agents.length := by
  rw [stepSim_agents, List.length_map, phaseA_length, movedAgents, List.length_map]

theorem simInit_length (cfg : SimulationConfig) (ir : ℕ → AgentInitRand) :
    (simInit cfg ir).agents.length = cfg.N.toNat := by
  show ((List.range cfg.N.toNat).map fun i => initAgent cfg (ir i) i).length = cfg.N.toNat
  rw [List.length_map, List.length_range]

theorem runSim_length (cfg : SimulationConfig) (ir : ℕ → AgentInitRand)
    (sr : ℕ → ℕ → AgentStepRand) (n : ℕ) :
    (runSim cfg ir sr n).agents.length = cfg.N.toNat := by
  induction n with
  | zero => exact simInit_length cfg ir
  | succ n ih => rw [runSim, stepN, stepSim_length]; exact ih

theorem runSim_stats_length (cfg : SimulationConfig) (ir : ℕ → AgentInitRand)
    (sr : ℕ → ℕ → AgentStepRand) (n : ℕ) (s : SState) :
    ((runSim cfg ir sr n).stats s).length = n + 1 := by
  induction n with
  | zero => rw [runSim, stepN, simInit_stats, List.length_singleton]
  | succ n ih =>
    rw [runSim] at ih ⊢
    rw [stepN, stepSim_stats, List.length_append, ih, List.length_singleton]

/-- The entry `update_stats` appended at the latest step boundary is the
per-state count of the simulation's current agent list. -/
theorem runSim_stats_last (cfg : SimulationConfig) (ir : ℕ → AgentInitRand)
    (sr : ℕ → ℕ → AgentStepRand) (n : ℕ) (s : SState) :
    ((runSim cfg ir sr n).stats s).getLastD 0 =
      countState (runSim cfg ir sr n).agents s := by
  cases n with
  | zero => rw [runSim, stepN, simInit_stats]; rfl
  | succ n => rw [runSim, stepN, stepSim_stats, List.getLastD_concat]

/-! ### Concrete data shared by the witnesses -/

/-- A small valid config with deterministic periods, unit step and no
mobility forces. -/
def cfgW : SimulationConfig :=
  { N := 3, grid_size := 10, beta := 1, incubation_mean := 5, incubation_std := 0,
    infectious_mean := 7, infectious_std := 0, mortality_rate := 0, vax_rate := 0,
    interaction_radius := 2, dt := 1, home_attraction := 0, random_force := 0,
    isolation_compliance := 0, detection_prob := 0 }

/-- Default initialization draws. -/
def irZero : ℕ → AgentInitRand := fun _ => {}

/-- Default step draws. -/
def srZero : ℕ → ℕ → AgentStepRand := fun _ _ => {}

/-- A deceased agent used by witnesses. -/
def dAgentW : Agent :=
  { id := 0, x := 1, y := 1, vx := 0, vy := 0, home_x := 1, home_y := 1,
    state := SState.D, state_timer := 3 }

/-- A one-agent simulation holding `dAgentW`. -/
def simW : Simulation :=
  { config := cfgW, agents := [dAgentW], stats := fun _ => [], rt_history := [] }

/-! ### Claims -/

/-- C1: Population conservation.  At every recorded step boundary — after
construction and after each `step()` — the five per-state counts
`update_stats` appended sum exactly to the configured population size `N`:
the agent list keeps length `N` forever (no agent is created or destroyed
after `init_agents`), every history has exactly one entry per boundary, and
the five tallies of the latest entry partition the agent list because each
agent's single `state` field is exactly one of S, E, I, R, D. -/
theorem population_conservation (cfg : SimulationConfig) (ir : ℕ → AgentInitRand)
    (sr : ℕ → ℕ → AgentStepRand) (n : ℕ) (hN : 0 ≤ cfg.N) :
    ((runSim cfg ir sr n).agents.length : ℤ) = cfg.N ∧
    (((runSim cfg ir sr n).stats SState.S).length = n + 1 ∧
     ((runSim cfg ir sr n).stats SState.E).length = n + 1 ∧
     ((runSim cfg ir sr n).stats SState.I).length = n + 1 ∧
     ((runSim cfg ir sr n).stats SState.R).length = n + 1 ∧
     ((runSim cfg ir sr n).stats SState.D).length = n + 1) ∧
    ((((runSim cfg ir sr n).stats SState.S).getLastD 0 : ℤ) +
     (((runSim cfg ir sr n).stats SState.E).getLastD 0 : ℤ) +
     (((runSim cfg ir sr n).stats SState.I).getLastD 0 : ℤ) +
     (((runSim cfg ir sr n).stats SState.R).getLastD 0 : ℤ) +
     (((runSim cfg ir sr n).stats SState.D).getLastD 0 : ℤ)) = cfg.N := by
  have hlen := runSim_length cfg ir sr n
  have hcast : (cfg.N.toNat : ℤ) = cfg.N := Int.toNat_of_nonneg hN
  refine ⟨by rw [hlen]; exact hcast,
    ⟨runSim_stats_length cfg ir sr n SState.S, runSim_stats_length cfg ir sr n SState.E,
     runSim_stats_length cfg ir sr n SState.I, runSim_stats_length cfg ir sr n SState.R,
     runSim_stats_length cfg ir sr n SState.D⟩, ?_⟩
  rw [runSim_stats_last, runSim_stats_last, runSim_stats_last, runSim_stats_last,
    runSim_stats_last]
  have hp := countState_partition (runSim cfg ir sr n).agents
  rw [hlen] at hp
  omega

/-- Witness for C1: a three-agent run of one step. -/
theorem population_conservation_witness :
    0 ≤ cfgW.N ∧
    (((runSim cfgW irZero srZero 1).agents.length : ℤ) = cfgW.N ∧
    (((runSim cfgW irZero srZero 1).stats SState.S).length = 1 + 1 ∧
     ((runSim cfgW irZero srZero 1).stats SState.E).length = 1 + 1 ∧
     ((runSim cfgW irZero srZero 1).stats SState.I).length = 1 + 1 ∧
     ((runSim cfgW irZero srZero 1).stats SState.R).length = 1 + 1 ∧
     ((runSim cfgW irZero srZero 1).stats SState.D).length = 1 + 1) ∧
    ((((runSim cfgW irZero srZero 1).stats SState.S).getLastD 0 : ℤ) +
     (((runSim cfgW irZero srZero 1).stats SState.E).getLastD 0 : ℤ) +
     (((runSim cfgW irZero srZero 1).stats SState.I).getLastD 0 : ℤ) +
     (((runSim cfgW irZero srZero 1).stats SState.R).getLastD 0 : ℤ) +
     (((runSim cfgW irZero srZero 1).stats SState.D).getLastD 0 : ℤ)) = cfgW.N) :=
  ⟨by decide, population_conservation cfgW irZero srZero 1 (by decide)⟩

/-- C5: Absorbing terminality of D.  An agent that is deceased at a step
boundary keeps its state, timer, position and isolation flag through any
number of further `step()` calls: `move` skips it, the decide loop only
refreshes its pending scratch fields, and the commit loop re-writes the
unchanged timer. -/
theorem absorbing_terminality (sr : ℕ → ℕ → AgentStepRand) (sim : Simulation) (i n : ℕ)
    (a : Agent) (hget : sim.agents[i]? = some a) (hD : a.state = SState.D) :
    ∃ b, (stepN sr n sim).agents[i]? = some b ∧ b.state = SState.D ∧
      b.state_timer = a.state_timer ∧ b.x = a.x ∧ b.y = a.y ∧
      b.is_isolated = a.is_isolated := by
  induction n with
  | zero => exact ⟨a, hget, hD, rfl, rfl, rfl, rfl⟩
  | succ n ih =>
    obtain ⟨b, hb, hbD, hbt, hbx, hby, hbi⟩ := ih
    obtain ⟨c, hc, hcD, hct, hcx, hcy, _, _, hci⟩ :=
      stepSim_D_fields (sr n) (stepN sr n sim) i b hb hbD
    exact ⟨c, hc, hcD, hct.trans hbt, hcx.trans hbx, hcy.trans hby, hci.trans hbi⟩

/-- Witness for C5: a deceased agent is untouched by two steps. -/
theorem absorbing_terminality_witness :
    simW.agents[0]? = some dAgentW ∧ dAgentW.state = SState.D ∧
    ∃ b, (stepN srZero 2 simW).agents[0]? = some b ∧ b.state = SState.D ∧
      b.state_timer = dAgentW.state_timer ∧ b.x = dAgentW.x ∧ b.y = dAgentW.y ∧
      b.is_isolated = dAgentW.is_isolated :=
  ⟨rfl, rfl, absorbing_terminality srZero simW 0 2 dAgentW rfl rfl⟩

/-- C8: Reproduction-number estimate.  `update_stats` appends
`(newInfections / dt) / currentlyInfectious * infectiousMean` when the
currently-infectious counter is positive and exactly `0` otherwise; the
initial snapshot of construction records `Rt = 0` (both counters are 0),
and every `step()` appends the value of this formula at its own step-scoped
counters. -/
theorem rt_estimate_formula :
    (∀ (sim : Simulation) (ni ci : ℕ),
      (updateStats sim ni ci).rt_history = sim.rt_history ++
        [if 0 < ci then (ni : ℚ) / sim.config.dt / (ci : ℚ) * sim.config.infectious_mean
          else 0]) ∧
    (∀ (cfg : SimulationConfig) (ir : ℕ → AgentInitRand),
      (simInit cfg ir).rt_history = [0]) ∧
    (∀ (rand : ℕ → AgentStepRand) (sim : Simulation),
      (stepSim rand sim).rt_history = sim.rt_history ++
        [if 0 < (stepCounters rand sim).2 then
            ((stepCounters rand sim).1 : ℚ) / sim.config.dt / ((stepCounters rand sim).2 : ℚ)
              * sim.config.infectious_mean
          else 0]) :=
  ⟨fun _ _ _ => rfl, fun _ _ => rfl, fun _ _ => rfl⟩

theorem simInit_agents (cfg : SimulationConfig) (ir : ℕ → AgentInitRand) :
    (simInit cfg ir).agents = (List.range cfg.N.toNat).map fun i => initAgent cfg (ir i) i := rfl

theorem countState_eq_count (agents : List Agent) (s : SState) :
    countState agents s = (agents.map (·.state)).count s := by
  induction agents with
  | nil => rfl
  | cons a rest ih =>
    unfold countState at *
    by_cases h : a.state = s <;>
      simp [List.filter_cons, List.count_cons, h, ih]

theorem map_range_succ_const {α : Type _} (f : ℕ → α) (c : α) (m : ℕ)
    (h : ∀ i, f (i + 1) = c) :
    (List.range (m + 1)).map f = f 0 :: List.replicate m c := by
  induction m with
  | zero => rfl
  | succ m ih =>
    rw [List.range_succ, List.map_append, ih, List.map_singleton, h, List.cons_append,
      ← List.replicate_succ']

/-- C6: Initial condition.  Construction seeds exactly agent 0 (patient
zero) infectious with a zero-truncated normal infectious-period timer; the
other `N - 1` agents are susceptible with zero timer; nobody is isolated;
and `update_stats` has already recorded the step-0 snapshot, so every
per-state history and the Rt history hold exactly one entry. -/
theorem initial_condition (cfg : SimulationConfig) (ir : ℕ → AgentInitRand) (hN : 1 ≤ cfg.N) :
    (simInit cfg ir).agents.map (·.state) =
      SState.I :: List.replicate (cfg.N.toNat - 1) SState.S ∧
    (simInit cfg ir).agents.map (·.state_timer) =
      (max 0 (cfg.infectious_mean + cfg.infectious_std * (ir 0).inf_z)) ::
        List.replicate (cfg.N.toNat - 1) 0 ∧
    countState (simInit cfg ir).agents SState.I = 1 ∧
    (∀ a ∈ (simInit cfg ir).agents, a.is_isolated = false) ∧
    (∀ s, ((simInit cfg ir).stats s).length = 1) ∧
    (simInit cfg ir).rt_history = [0] := by
  obtain ⟨m, hm⟩ : ∃ m, cfg.N.toNat = m + 1 := ⟨cfg.N.toNat - 1, by omega⟩
  have hm1 : cfg.N.toNat - 1 = m := by omega
  have hstates : (simInit cfg ir).agents.map (·.state) =
      SState.I :: List.replicate m SState.S := by
    rw [simInit_agents, List.map_map, hm]
    exact map_range_succ_const _ _ m fun i => rfl
  have htimers : (simInit cfg ir).agents.map (·.state_timer) =
      (max 0 (cfg.infectious_mean + cfg.infectious_std * (ir 0).inf_z)) ::
        List.replicate m 0 := by
    rw [simInit_agents, List.map_map, hm]
    exact map_range_succ_const _ _ m fun i => rfl
  refine ⟨by rw [hstates, hm1], by rw [htimers, hm1], ?_,
    ?_, fun s => by rw [simInit_stats]; rfl, rfl⟩
  · rw [countState_eq_count, hstates]
    simp [List.count_cons, List.count_replicate]
  · intro a ha
    rw [simInit_agents, List.mem_map] at ha
    obtain ⟨i, _, rfl⟩ := ha
    rfl

/-- Witness for C6 at the concrete config `cfgW`. -/
theorem initial_condition_witness :
    1 ≤ cfgW.N ∧
    ((simInit cfgW irZero).agents.map (·.state) =
      SState.I :: List.replicate (cfgW.N.toNat - 1) SState.S ∧
    (simInit cfgW irZero).agents.map (·.state_timer) =
      (max 0 (cfgW.infectious_mean + cfgW.infectious_std * (irZero 0).inf_z)) ::
        List.replicate (cfgW.N.toNat - 1) 0 ∧
    countState (simInit cfgW irZero).agents SState.I = 1 ∧
    (∀ a ∈ (simInit cfgW irZero).agents, a.is_isolated = false) ∧
    (∀ s, ((simInit cfgW irZero).stats s).length = 1) ∧
    (simInit cfgW irZero).rt_history = [0]) :=
  ⟨by decide, initial_condition cfgW irZero (by decide)⟩

/-! ### Single-agent step evaluation (claim C7) -/

/-- `step()` on a one-agent simulation: move the agent, decide it against
the one-entry grid, commit. -/
theorem stepSim_singleton (rand : ℕ → AgentStepRand) (sim : Simulation)
    (cfg : SimulationConfig) (a b : Agent) (h : sim.agents = [a]) (hc : sim.config = cfg)
    (hb : a.move cfg.grid_size cfg.dt cfg.home_attraction cfg.random_force
        (rand a.id).move_ux (rand a.id).move_uy = b) :
    (stepSim rand sim).agents =
      [commitAgent cfg.dt (decideAgent cfg (rand b.id) (gridIds cfg [b]) [b] b).1] := by
  rw [stepSim_agents, movedAgents, h, hc]
  simp only [List.map_cons, List.map_nil, hb]
  rfl

/-- The deterministic-path config: unit step, zero-variance periods,
default infectious mean 7, no forces, no interventions. -/
def cfgTimer : SimulationConfig :=
  { N := 1, grid_size := 50, beta := 1, incubation_mean := 5, incubation_std := 0,
    infectious_mean := 7, infectious_std := 0, mortality_rate := 0, vax_rate := 0,
    interaction_radius := 2, dt := 1, home_attraction := 0, random_force := 0,
    isolation_compliance := 0, detection_prob := 0 }

/-- An exposed agent with two time units left, at rest inside the grid. -/
def agTimer : Agent :=
  { id := 0, x := 25, y := 25, vx := 0, vy := 0, home_x := 25, home_y := 25,
    state := SState.E, state_timer := 2 }

/-- A simulation holding only `agTimer`. -/
def simTimer : Simulation :=
  { config := cfgTimer, agents := [agTimer], stats := fun _ => [], rt_history := [] }

/-- `agTimer` one committed step later. -/
def agTimer1 : Agent :=
  { id := 0, x := 25, y := 25, vx := 0, vy := 0, home_x := 25, home_y := 25,
    state := SState.E, state_timer := 1, days_in_state := 1,
    next_state := SState.E, next_timer := 1 }

theorem move_agTimer (ux uy : ℚ) : agTimer.move 50 1 0 0 ux uy = agTimer := by
  unfold Agent.move agTimer
  norm_num

theorem decide_agTimer (r : AgentStepRand) (g : ℤ × ℤ → List ℕ) (l : List Agent) :
    decideAgent cfgTimer r g l agTimer =
      ({ agTimer with next_state := SState.E, next_timer := 1 }, 0, 0) := by
  unfold decideAgent agTimer cfgTimer
  norm_num

theorem commit_agTimer :
    commitAgent cfgTimer.dt { agTimer with next_state := SState.E, next_timer := 1 } =
      agTimer1 := by
  unfold commitAgent agTimer agTimer1 cfgTimer
  norm_num

theorem simTimer_step1 (r1 : ℕ → AgentStepRand) :
    (stepSim r1 simTimer).agents = [agTimer1] := by
  rw [stepSim_singleton r1 simTimer cfgTimer agTimer agTimer rfl rfl (move_agTimer _ _),
    decide_agTimer, commit_agTimer]

theorem move_agTimer1 (ux uy : ℚ) : agTimer1.move 50 1 0 0 ux uy = agTimer1 := by
  unfold Agent.move agTimer1
  norm_num

theorem decide_agTimer1 (r : AgentStepRand) (g : ℤ × ℤ → List ℕ) (l : List Agent)
    (h : 0 ≤ r.detect_roll) :
    decideAgent cfgTimer r g l agTimer1 =
      ({ agTimer1 with next_state := SState.I, next_timer := 7 }, 0, 0) := by
  unfold decideAgent agTimer1 cfgTimer
  norm_num [not_lt.mpr h]

theorem simTimer_step2 (r1 r2 : ℕ → AgentStepRand) (h : 0 ≤ (r2 0).detect_roll) :
    (stepSim r2 (stepSim r1 simTimer)).agents.map (fun a => (a.state, a.state_timer)) =
      [(SState.I, 7)] := by
  rw [stepSim_singleton r2 (stepSim r1 simTimer) cfgTimer agTimer1 agTimer1
    (simTimer_step1 r1) rfl (move_agTimer1 _ _), decide_agTimer1 (r2 agTimer1.id) _ _ h]
  rfl

/-- The clamp-to-zero config: infectious mean 0, so the freshly sampled
infectious timer is `max 0 0 = 0`. -/
def cfgTimer0 : SimulationConfig := { cfgTimer with infectious_mean := 0 }

/-- An exposed agent with one time unit left. -/
def agTimer0 : Agent := { agTimer with state_timer := 1 }

/-- A simulation holding only `agTimer0` under `cfgTimer0`. -/
def simTimer0 : Simulation :=
  { config := cfgTimer0, agents := [agTimer0], stats := fun _ => [], rt_history := [] }

/-- `agTimer0` after its E→I step: infectious with timer exactly 0. -/
def agTimerI : Agent :=
  { agTimer with state := SState.I, state_timer := 0,
                 next_state := SState.I, next_timer := 0 }

theorem move_agTimer0 (ux uy : ℚ) : agTimer0.move 50 1 0 0 ux uy = agTimer0 := by
  unfold Agent.move agTimer0 agTimer
  norm_num

theorem decide_agTimer0 (r : AgentStepRand) (g : ℤ × ℤ → List ℕ) (l : List Agent)
    (h : 0 ≤ r.detect_roll) :
    decideAgent cfgTimer0 r g l agTimer0 =
      ({ agTimer0 with next_state := SState.I, next_timer := 0 }, 0, 0) := by
  unfold decideAgent agTimer0 agTimer cfgTimer0 cfgTimer
  norm_num [not_lt.mpr h]

theorem commit_agTimer0 :
    commitAgent cfgTimer0.dt { agTimer0 with next_state := SState.I, next_timer := 0 } =
      agTimerI := by
  unfold commitAgent agTimer0 agTimerI agTimer cfgTimer0 cfgTimer
  norm_num
  decide

theorem simTimer0_step1 (r3 : ℕ → AgentStepRand) (h : 0 ≤ (r3 0).detect_roll) :
    (stepSim r3 simTimer0).agents = [agTimerI] := by
  rw [stepSim_singleton r3 simTimer0 cfgTimer0 agTimer0 agTimer0 rfl rfl
    (move_agTimer0 _ _), decide_agTimer0 (r3 agTimer0.id) _ _ h, commit_agTimer0]

theorem move_agTimerI (ux uy : ℚ) : agTimerI.move 50 1 0 0 ux uy = agTimerI := by
  unfold Agent.move agTimerI agTimer
  norm_num

theorem decide_agTimerI (r : AgentStepRand) (g : ℤ × ℤ → List ℕ) (l : List Agent)
    (h : 0 ≤ r.mort_roll) :
    decideAgent cfgTimer0 r g l agTimerI =
      ({ agTimerI with next_state := SState.R, next_timer := -1,
                       is_isolated := false }, 0, 1) := by
  unfold decideAgent agTimerI agTimer cfgTimer0 cfgTimer
  norm_num [not_lt.mpr h]

theorem simTimer0_step2 (r3 r4 : ℕ → AgentStepRand) (h3 : 0 ≤ (r3 0).detect_roll)
    (h4 : 0 ≤ (r4 0).mort_roll) :
    ((stepSim r4 (stepSim r3 simTimer0)).agents.map (·.state)) = [SState.R] := by
  rw [stepSim_singleton r4 (stepSim r3 simTimer0) cfgTimer0 agTimerI agTimerI
    (simTimer0_step1 r3 h3) rfl (move_agTimerI _ _), decide_agTimerI (r4 agTimerI.id) _ _ h4]
  rfl

/-- C7: Deterministic timer path.  Under zero-variance period sampling,
`dt = 1` and no transmission source, an exposed agent with timer 2 is after
one `step()` still exposed with timer 1, and after a second `step()`
infectious with timer `infectious_mean = 7`.  When the freshly sampled
infectious timer clamps to exactly 0 (infectious mean 0), the E→I step
still ends with the agent infectious — the zero timer triggers no second
transition inside that step — and only the next step's decide loop moves it
on to R.  The draw bounds required are only that the consumed detection and
mortality rolls are nonnegative, as every `random.random()` outcome is. -/
theorem deterministic_timer_path (r1 r2 r3 r4 : ℕ → AgentStepRand)
    (h2 : 0 ≤ (r2 0).detect_roll) (h3 : 0 ≤ (r3 0).detect_roll)
    (h4 : 0 ≤ (r4 0).mort_roll) :
    ((stepSim r1 simTimer).agents.map fun a => (a.state, a.state_timer)) =
      [(SState.E, 1)] ∧
    ((stepSim r2 (stepSim r1 simTimer)).agents.map fun a => (a.state, a.state_timer)) =
      [(SState.I, 7)] ∧
    ((stepSim r3 simTimer0).agents.map fun a => (a.state, a.state_timer)) =
      [(SState.I, 0)] ∧
    ((stepSim r4 (stepSim r3 simTimer0)).agents.map (·.state)) = [SState.R] := by
  refine ⟨?_, simTimer_step2 r1 r2 h2, ?_, simTimer0_step2 r3 r4 h3 h4⟩
  · rw [simTimer_step1 r1]; rfl
  · rw [simTimer0_step1 r3 h3]; rfl

/-- Witness for C7 with the default draw outcomes. -/
theorem deterministic_timer_path_witness :
    (0 ≤ ((srZero 0) 0).detect_roll ∧ 0 ≤ ((srZero 0) 0).mort_roll) ∧
    (((stepSim (srZero 0) simTimer).agents.map fun a => (a.state, a.state_timer)) =
      [(SState.E, 1)] ∧
    ((stepSim (srZero 0) (stepSim (srZero 0) simTimer)).agents.map
      fun a => (a.state, a.state_timer)) = [(SState.I, 7)] ∧
    ((stepSim (srZero 0) simTimer0).agents.map fun a => (a.state, a.state_timer)) =
      [(SState.I, 0)] ∧
    ((stepSim (srZero 0) (stepSim (srZero 0) simTimer0)).agents.map (·.state)) =
      [SState.R]) :=
  ⟨⟨by decide, by decide⟩,
    deterministic_timer_path (srZero 0) (srZero 0) (srZero 0) (srZero 0)
      (by decide) (by decide) (by decide)⟩

/-! ### Isolation-flag behaviour of the decide loop (claim C10) -/

/-- Deciding a susceptible, recovered or deceased agent never touches its
isolation flag. -/
theorem decideAgent_isolated_SRD (cfg : SimulationConfig) (r : AgentStepRand)
    (g : ℤ × ℤ → List ℕ) (l : List Agent) (a : Agent)
    (h : a.state = SState.S ∨ a.state = SState.R ∨ a.state = SState.D) :
    (decideAgent cfg r g l a).1.is_isolated = a.is_isolated := by
  unfold decideAgent
  rcases h with h | h | h
  · simp [h]
    split_ifs <;> rfl
  · simp [h]
  · simp [h]

/-- The isolation flag of an exposed agent after its decide body: set iff
its decremented timer expired and both the detection and the compliance
rolls succeeded, otherwise left as it was. -/
theorem decideAgent_isolated_E (cfg : SimulationConfig) (r : AgentStepRand)
    (g : ℤ × ℤ → List ℕ) (l : List Agent) (a : Agent) (h : a.state = SState.E) :
    (decideAgent cfg r g l a).1.is_isolated =
      if a.state_timer - cfg.dt ≤ 0 ∧ r.detect_roll < cfg.detection_prob ∧
          r.comply_roll < cfg.isolation_compliance then true
      else a.is_isolated := by
  unfold decideAgent
  simp only [h]
  split_ifs with h1 h2 h3 <;> simp_all

/-- The pending state of an exposed agent after its decide body. -/
theorem decideAgent_next_E (cfg : SimulationConfig) (r : AgentStepRand)
    (g : ℤ × ℤ → List ℕ) (l : List Agent) (a : Agent) (h : a.state = SState.E) :
    (decideAgent cfg r g l a).1.next_state =
      if a.state_timer - cfg.dt ≤ 0 then SState.I else SState.E := by
  unfold decideAgent
  simp only [h]
  split_ifs with h1 h2 h3 <;> simp_all

/-- The isolation flag of an infectious agent after its decide body:
cleared exactly when its decremented timer expired. -/
theorem decideAgent_isolated_I (cfg : SimulationConfig) (r : AgentStepRand)
    (g : ℤ × ℤ → List ℕ) (l : List Agent) (a : Agent) (h : a.state = SState.I) :
    (decideAgent cfg r g l a).1.is_isolated =
      if a.state_timer - cfg.dt ≤ 0 then false else a.is_isolated := by
  unfold decideAgent
  simp only [h]
  split_ifs with h1 h2 <;> simp_all

/-- The pending state of an infectious agent after its decide body. -/
theorem decideAgent_next_I (cfg : SimulationConfig) (r : AgentStepRand)
    (g : ℤ × ℤ → List ℕ) (l : List Agent) (a : Agent) (h : a.state = SState.I) :
    (decideAgent cfg r g l a).1.next_state =
      if a.state_timer - cfg.dt ≤ 0 then
        (if r.mort_roll < cfg.mortality_rate then SState.D else SState.R)
      else SState.I := by
  unfold decideAgent
  simp only [h]
  split_ifs with h1 h2 <;> simp_all

/-- Boundary invariant: only infectious agents carry the isolation flag. -/
def IsoInv (agents : List Agent) : Prop :=
  ∀ a ∈ agents, a.is_isolated = true → a.state = SState.I

/-- Mid-decide-loop invariant: a flagged agent still waiting to be
processed is infectious; a flagged agent already processed is either
infectious and staying so, or exposed and pending infectious. -/
def IsoMid (order : List ℕ) (l : List Agent) : Prop :=
  ∀ i a, l[i]? = some a → a.is_isolated = true →
    (i ∈ order → a.state = SState.I) ∧
    (i ∉ order →
      (a.state = SState.I ∧ a.next_state = SState.I) ∨
      (a.state = SState.E ∧ a.next_state = SState.I))

theorem phaseA_isoMid (cfg : SimulationConfig) (rand : ℕ → AgentStepRand)
    (grid : ℤ × ℤ → List ℕ) :
    ∀ (order : List ℕ) (l : List Agent) (ni ci : ℕ),
      order.Nodup → IsoMid order l →
      IsoMid [] (phaseA cfg rand grid order l ni ci).1 := by
  intro order
  induction order with
  | nil => intro l ni ci _ h; exact h
  | cons j rest ih =>
    intro l ni ci hnd hmid
    have hjr : j ∉ rest := (List.nodup_cons.mp hnd).1
    have hndr : rest.Nodup := (List.nodup_cons.mp hnd).2
    unfold phaseA
    cases hj : l[j]? with
    | none =>
      refine ih _ ni ci hndr ?_
      intro i a hi hiso
      obtain ⟨h1, h2⟩ := hmid i a hi hiso
      refine ⟨fun hir => h1 (List.mem_cons_of_mem _ hir), fun hir => h2 fun hmem => ?_⟩
      rcases List.mem_cons.mp hmem with hij | hik
      · subst hij; rw [hi] at hj; cases hj
      · exact hir hik
    | some b =>
      refine ih _ _ _ hndr ?_
      intro i a hi hiso
      by_cases hij : i = j
      · subst hij
        have hlt : i < l.length := (List.getElem?_eq_some.mp hj).1
        rw [List.getElem?_set_self hlt, Option.some_inj] at hi
        subst hi
        have hbI : b.is_isolated = true → b.state = SState.I :=
          fun hbiso => (hmid i b hj hbiso).1 (List.mem_cons_self ..)
        have hstate := (decideAgent_committed cfg (rand b.id) grid l b).1
        refine ⟨fun hir => absurd hir hjr, fun _ => ?_⟩
        rcases hb : b.state with _ | _ | _ | _ | _
        · rw [decideAgent_isolated_SRD cfg (rand b.id) grid l b (Or.inl hb)] at hiso
          rw [hbI hiso] at hb; cases hb
        · rw [decideAgent_isolated_E cfg (rand b.id) grid l b hb] at hiso
          by_cases hcond : b.state_timer - cfg.dt ≤ 0 ∧
            (rand b.id).detect_roll < cfg.detection_prob ∧
            (rand b.id).comply_roll < cfg.isolation_compliance
          · exact Or.inr ⟨hstate.trans hb,
              (decideAgent_next_E cfg (rand b.id) grid l b hb).trans (if_pos hcond.1)⟩
          · rw [if_neg hcond] at hiso
            rw [hbI hiso] at hb; cases hb
        · rw [decideAgent_isolated_I cfg (rand b.id) grid l b hb] at hiso
          by_cases hcond : b.state_timer - cfg.dt ≤ 0
          · rw [if_pos hcond] at hiso; cases hiso
          · exact Or.inl ⟨hstate.trans hb,
              (decideAgent_next_I cfg (rand b.id) grid l b hb).trans (if_neg hcond)⟩
        · rw [decideAgent_isolated_SRD cfg (rand b.id) grid l b (Or.inr (Or.inl hb))] at hiso
          rw [hbI hiso] at hb; cases hb
        · rw [decideAgent_isolated_SRD cfg (rand b.id) grid l b (Or.inr (Or.inr hb))] at hiso
          rw [hbI hiso] at hb; cases hb
      · rw [List.getElem?_set_ne (Ne.symm hij)] at hi
        obtain ⟨h1, h2⟩ := hmid i a hi hiso
        refine ⟨fun hir => h1 (List.mem_cons_of_mem _ hir), fun hir => h2 fun hmem => ?_⟩
        rcases List.mem_cons.mp hmem with hij' | hik
        · exact hij hij'
        · exact hir hik

theorem stepSim_isoInv (rand : ℕ → AgentStepRand) (sim : Simulation)
    (h : IsoInv sim.agents) : IsoInv (stepSim rand sim).agents := by
  have hmv : IsoInv (movedAgents rand sim) := by
    intro a ha hiso
    rw [movedAgents, List.mem_map] at ha
    obtain ⟨b, hb, rfl⟩ := ha
    rw [move_isolated] at hiso
    rw [move_state]
    exact h b hb hiso
  have hmid : IsoMid (List.range (movedAgents rand sim).length) (movedAgents rand sim) := by
    intro i a hi hiso
    have hlt : i < (movedAgents rand sim).length := (List.getElem?_eq_some.mp hi).1
    have hamem : a ∈ movedAgents rand sim :=
      List.mem_iff_getElem?.mpr ⟨i, hi⟩
    exact ⟨fun _ => hmv a hamem hiso, fun hir => absurd (List.mem_range.mpr hlt) hir⟩
  have hfin := phaseA_isoMid sim.config rand (gridIds sim.config (movedAgents rand sim))
    (List.range (movedAgents rand sim).length) (movedAgents rand sim) 0 0
    (List.nodup_range _) hmid
  intro a ha hiso
  rw [stepSim_agents, List.mem_map] at ha
  obtain ⟨b, hb, rfl⟩ := ha
  rw [commitAgent_isolated] at hiso
  obtain ⟨i, hi⟩ := List.mem_iff_getElem?.mp hb
  have h2 := (hfin i b hi hiso).2 (List.not_mem_nil _)
  rw [commitAgent_state]
  rcases h2 with ⟨_, hnext⟩ | ⟨_, hnext⟩ <;> exact hnext

theorem simInit_isoInv (cfg : SimulationConfig) (ir : ℕ → AgentInitRand) :
    IsoInv (simInit cfg ir).agents := by
  intro a ha hiso
  rw [simInit_agents, List.mem_map] at ha
  obtain ⟨i, _, rfl⟩ := ha
  cases hiso

/-- C10: Isolation only in state I.  At every step boundary a set isolation
flag implies the agent is infectious: construction starts every flag false,
and one `step()` preserves the invariant because the flag is set only on an
E→I transition whose detection and compliance rolls both succeed, is
cleared whenever an infectious agent's timer expires (the step it leaves I),
and is never touched while the agent is susceptible, recovered or
deceased. -/
theorem isolation_only_infectious (cfg : SimulationConfig) (ir : ℕ → AgentInitRand)
    (sr : ℕ → ℕ → AgentStepRand) (n : ℕ) :
    (∀ a ∈ (runSim cfg ir sr n).agents, a.is_isolated = true → a.state = SState.I) ∧
    (∀ (r : AgentStepRand) (g : ℤ × ℤ → List ℕ) (l : List Agent) (a : Agent),
      a.state = SState.E →
      ((decideAgent cfg r g l a).1.is_isolated = true ↔
        (a.state_timer - cfg.dt ≤ 0 ∧ r.detect_roll < cfg.detection_prob ∧
          r.comply_roll < cfg.isolation_compliance) ∨ a.is_isolated = true)) ∧
    (∀ (r : AgentStepRand) (g : ℤ × ℤ → List ℕ) (l : List Agent) (a : Agent),
      a.state = SState.I → a.state_timer - cfg.dt ≤ 0 →
      (decideAgent cfg r g l a).1.is_isolated = false) ∧
    (∀ (r : AgentStepRand) (g : ℤ × ℤ → List ℕ) (l : List Agent) (a : Agent),
      a.state = SState.S ∨ a.state = SState.R ∨ a.state = SState.D →
      (decideAgent cfg r g l a).1.is_isolated = a.is_isolated) := by
  refine ⟨?_, ?_, ?_, decideAgent_isolated_SRD cfg⟩
  · induction n with
    | zero => exact simInit_isoInv cfg ir
    | succ n ih => exact stepSim_isoInv (sr n) _ ih
  · intro r g l a h
    rw [decideAgent_isolated_E cfg r g l a h]
    split_ifs with hcond
    · simp [hcond]
    · exact ⟨Or.inr, fun hor => hor.resolve_left hcond⟩
  · intro r g l a h ht
    rw [decideAgent_isolated_I cfg r g l a h, if_pos ht]

/-- Config with certain detection and compliance, for the C10 witness. -/
def cfgIso : SimulationConfig :=
  { cfgW with detection_prob := 1, isolation_compliance := 1 }

/-- Step draws whose detection and compliance rolls succeed. -/
def rIso : AgentStepRand := { detect_roll := 0, comply_roll := 0 }

/-- The empty spatial grid. -/
def gNil : ℤ × ℤ → List ℕ := fun _ => []

/-- An exposed agent whose timer expires on the next unit step. -/
def agIsoE : Agent :=
  { id := 0, x := 1, y := 1, vx := 0, vy := 0, home_x := 1, home_y := 1,
    state := SState.E, state_timer := 1 }

/-- An isolated infectious agent whose timer expires on the next unit step. -/
def agIsoI : Agent := { agIsoE with state := SState.I, is_isolated := true }

/-- A susceptible agent carrying no flag. -/
def agIsoS : Agent := { agIsoE with state := SState.S }

/-- Witness for C10: the invariant after one concrete step, a concrete
flag-setting E→I decision, a concrete flag-clearing expiring-I decision,
and a flag-preserving S decision. -/
theorem isolation_only_infectious_witness :
    (∀ a ∈ (runSim cfgW irZero srZero 1).agents, a.is_isolated = true → a.state = SState.I) ∧
    agIsoE.state = SState.E ∧
    (agIsoE.state_timer - cfgIso.dt ≤ 0 ∧ rIso.detect_roll < cfgIso.detection_prob ∧
      rIso.comply_roll < cfgIso.isolation_compliance) ∧
    (decideAgent cfgIso rIso gNil [] agIsoE).1.is_isolated = true ∧
    (decideAgent cfgIso rIso gNil [] agIsoI).1.is_isolated = false ∧
    (decideAgent cfgIso rIso gNil [] agIsoS).1.is_isolated = agIsoS.is_isolated := by
  obtain ⟨h1, -, -, -⟩ := isolation_only_infectious cfgW irZero srZero 1
  obtain ⟨-, h2, h3, h4⟩ := isolation_only_infectious cfgIso irZero srZero 0
  have ht : agIsoE.state_timer - cfgIso.dt ≤ 0 := by
    norm_num [agIsoE, cfgIso, cfgW]
  have hd : rIso.detect_roll < cfgIso.detection_prob := by
    norm_num [rIso, cfgIso, cfgW]
  have hc : rIso.comply_roll < cfgIso.isolation_compliance := by
    norm_num [rIso, cfgIso, cfgW]
  have htI : agIsoI.state_timer - cfgIso.dt ≤ 0 := by
    norm_num [agIsoI, agIsoE, cfgIso, cfgW]
  refine ⟨h1, rfl, ⟨ht, hd, hc⟩, ?_, ?_, ?_⟩
  · exact (h2 rIso gNil [] agIsoE rfl).mpr (Or.inl ⟨ht, hd, hc⟩)
  · exact h3 rIso gNil [] agIsoI rfl htI
  · exact h4 rIso gNil [] agIsoS (Or.inl rfl)

/-! ### Transmission-scan short-circuit (claim C3) -/

/-- The scan scenario config: transmission certain within the radius,
deterministic incubation base 10 with std 1. -/
def cfgScan : SimulationConfig :=
  { N := 3, grid_size := 100, beta := 1, incubation_mean := 10, incubation_std := 1,
    infectious_mean := 7, infectious_std := 0, mortality_rate := 0, vax_rate := 0,
    interaction_radius := 2, dt := 1, home_attraction := 0, random_force := 0,
    isolation_compliance := 0, detection_prob := 0 }

def agScan0 : Agent :=
  { id := 0, x := 2, y := 2, vx := 0, vy := 0, home_x := 2, home_y := 2,
    state := SState.S }

def agScan1 : Agent :=
  { id := 1, x := 2, y := 19/10, vx := 0, vy := 0, home_x := 2, home_y := 19/10,
    state := SState.I, state_timer := 10 }

def agScan2 : Agent :=
  { id := 2, x := 2, y := 21/10, vx := 0, vy := 0, home_x := 2, home_y := 21/10,
    state := SState.I, state_timer := 10 }

def lScan : List Agent := [agScan0, agScan1, agScan2]

def rndScan : ℕ → AgentStepRand := fun _ =>
  { vax_roll := 1/2, trans_roll := fun _ => 0,
    incub_z := fun k => if k = 0 then 0 else 5,
    mort_roll := 1/2, detect_roll := 1/2, comply_roll := 1/2 }

theorem cellOf_scan0 : cellOf cfgScan 2 2 = (1, 1) := by
  unfold cellOf cellSize ratTrunc cfgScan
  norm_num [Int.floor_eq_iff]

theorem cellOf_scan1 : cellOf cfgScan 2 (19/10) = (1, 0) := by
  unfold cellOf cellSize ratTrunc cfgScan
  norm_num [Int.floor_eq_iff]

theorem cellOf_scan2 : cellOf cfgScan 2 (21/10) = (1, 1) := by
  unfold cellOf cellSize ratTrunc cfgScan
  norm_num [Int.floor_eq_iff]

theorem gridScan_00 : gridIds cfgScan lScan (0, 0) = [] := by
  unfold gridIds lScan
  rw [show List.range ([agScan0, agScan1, agScan2] : List Agent).length = [0, 1, 2] from rfl]
  norm_num [agScan0, agScan1, agScan2, cellOf_scan0, cellOf_scan1, cellOf_scan2,
    List.filter_cons]

theorem gridScan_01 : gridIds cfgScan lScan (0, 1) = [] := by
  unfold gridIds lScan
  rw [show List.range ([agScan0, agScan1, agScan2] : List Agent).length = [0, 1, 2] from rfl]
  norm_num [agScan0, agScan1, agScan2, cellOf_scan0, cellOf_scan1, cellOf_scan2,
    List.filter_cons]
  decide

theorem gridScan_02 : gridIds cfgScan lScan (0, 2) = [] := by
  unfold gridIds lScan
  rw [show List.range ([agScan0, agScan1, agScan2] : List Agent).length = [0, 1, 2] from rfl]
  norm_num [agScan0, agScan1, agScan2, cellOf_scan0, cellOf_scan1, cellOf_scan2,
    List.filter_cons]
  decide

theorem gridScan_10 : gridIds cfgScan lScan (1, 0) = [1] := by
  unfold gridIds lScan
  rw [show List.range ([agScan0, agScan1, agScan2] : List Agent).length = [0, 1, 2] from rfl]
  norm_num [agScan0, agScan1, agScan2, cellOf_scan0, cellOf_scan1, cellOf_scan2,
    List.filter_cons]
  decide

theorem gridScan_11 : gridIds cfgScan lScan (1, 1) = [0, 2] := by
  unfold gridIds lScan
  rw [show List.range ([agScan0, agScan1, agScan2] : List Agent).length = [0, 1, 2] from rfl]
  norm_num [agScan0, agScan1, agScan2, cellOf_scan0, cellOf_scan1, cellOf_scan2,
    List.filter_cons]
  decide

theorem gridScan_12 : gridIds cfgScan lScan (1, 2) = [] := by
  unfold gridIds lScan
  rw [show List.range ([agScan0, agScan1, agScan2] : List Agent).length = [0, 1, 2] from rfl]
  norm_num [agScan0, agScan1, agScan2, cellOf_scan0, cellOf_scan1, cellOf_scan2,
    List.filter_cons]
  decide

theorem gridScan_00z : gridIds cfgScan lScan 0 = [] := gridScan_00

theorem gridScan_11z : gridIds cfgScan lScan 1 = [0, 2] := gridScan_11

theorem lScan_get0 : lScan[0]? = some agScan0 := rfl
theorem lScan_get1 : lScan[1]? = some agScan1 := rfl
theorem lScan_get2 : lScan[2]? = some agScan2 := rfl

theorem cfgScan_vax : cfgScan.vax_rate = 0 := rfl
theorem cfgScan_dt : cfgScan.dt = 1 := rfl
theorem cfgScan_beta : cfgScan.beta = 1 := rfl
theorem cfgScan_radius : cfgScan.interaction_radius = 2 := rfl
theorem cfgScan_incMean : cfgScan.incubation_mean = 10 := rfl
theorem cfgScan_incStd : cfgScan.incubation_std = 1 := rfl

theorem agScan0_state : agScan0.state = SState.S := rfl
theorem agScan0_x : agScan0.x = 2 := rfl
theorem agScan0_y : agScan0.y = 2 := rfl
theorem agScan0_susc : agScan0.susceptibility = 1 := rfl
theorem agScan0_timer : agScan0.state_timer = 0 := rfl
theorem agScan0_iso : agScan0.is_isolated = false := rfl
theorem agScan0_inf : agScan0.infectiousness = 1 := rfl
theorem agScan1_state : agScan1.state = SState.I := rfl
theorem agScan1_x : agScan1.x = 2 := rfl
theorem agScan1_y : agScan1.y = 19/10 := rfl
theorem agScan1_iso : agScan1.is_isolated = false := rfl
theorem agScan1_inf : agScan1.infectiousness = 1 := rfl
theorem agScan2_state : agScan2.state = SState.I := rfl
theorem agScan2_x : agScan2.x = 2 := rfl
theorem agScan2_y : agScan2.y = 21/10 := rfl
theorem agScan2_iso : agScan2.is_isolated = false := rfl
theorem agScan2_inf : agScan2.infectiousness = 1 := rfl

theorem rndScan_vax : (rndScan 0).vax_roll = 1/2 := rfl
theorem rndScan_trans (k : ℕ) : (rndScan 0).trans_roll k = 0 := rfl
theorem rndScan_incub0 : (rndScan 0).incub_z 0 = 0 := rfl
theorem rndScan_incub1 : (rndScan 0).incub_z 1 = 5 := rfl

theorem decide_agScan0 :
    decideAgent cfgScan (rndScan 0) (gridIds cfgScan lScan) lScan agScan0 =
      ({ agScan0 with next_state := SState.E, next_timer := 15 }, 2, 0) := by
  unfold decideAgent
  norm_num [scanColumns, scanCell,
    gridScan_00, gridScan_01, gridScan_02, gridScan_10, gridScan_11, gridScan_12,
    gridScan_00z, gridScan_11z,
    cellOf_scan0, lScan_get0, lScan_get1, lScan_get2,
    cfgScan_vax, cfgScan_dt, cfgScan_beta, cfgScan_radius, cfgScan_incMean, cfgScan_incStd,
    agScan0_state, agScan0_x, agScan0_y, agScan0_susc, agScan0_timer, agScan0_iso,
    agScan0_inf,
    agScan1_state, agScan1_x, agScan1_y, agScan1_iso, agScan1_inf,
    agScan2_state, agScan2_x, agScan2_y, agScan2_iso, agScan2_inf,
    rndScan_vax, rndScan_trans, rndScan_incub0, rndScan_incub1]
  decide

def simScan : Simulation :=
  { config := cfgScan, agents := lScan, stats := fun _ => [], rt_history := [] }

def agScanE : Agent := { agScan0 with next_state := SState.E, next_timer := 15 }
def agScanI1 : Agent := { agScan1 with next_state := SState.I, next_timer := 9 }
def agScanI2 : Agent := { agScan2 with next_state := SState.I, next_timer := 9 }

theorem phaseA_nil (cfg : SimulationConfig) (rand : ℕ → AgentStepRand)
    (grid : ℤ × ℤ → List ℕ) (agents : List Agent) (ni ci : ℕ) :
    phaseA cfg rand grid [] agents ni ci = (agents, ni, ci) := rfl

theorem phaseA_cons (cfg : SimulationConfig) (rand : ℕ → AgentStepRand)
    (grid : ℤ × ℤ → List ℕ) (i : ℕ) (rest : List ℕ) (agents : List Agent)
    (ni ci : ℕ) (a : Agent) (h : agents[i]? = some a) :
    phaseA cfg rand grid (i :: rest) agents ni ci =
      phaseA cfg rand grid rest (agents.set i (decideAgent cfg (rand a.id) grid agents a).1)
        (ni + (decideAgent cfg (rand a.id) grid agents a).2.1)
        (ci + (decideAgent cfg (rand a.id) grid agents a).2.2) := by
  conv_lhs => rw [phaseA]
  rw [h]

theorem decide_agScan1 (g : ℤ × ℤ → List ℕ) (l : List Agent) :
    decideAgent cfgScan (rndScan 1) g l agScan1 = (agScanI1, 0, 1) := by
  unfold decideAgent agScanI1 agScan1 cfgScan rndScan
  norm_num

theorem decide_agScan2 (g : ℤ × ℤ → List ℕ) (l : List Agent) :
    decideAgent cfgScan (rndScan 2) g l agScan2 = (agScanI2, 0, 1) := by
  unfold decideAgent agScanI2 agScan2 cfgScan rndScan
  norm_num

theorem agScan0_id : agScan0.id = 0 := rfl
theorem agScan1_id : agScan1.id = 1 := rfl
theorem agScan2_id : agScan2.id = 2 := rfl

theorem phaseA_scan :
    phaseA cfgScan rndScan (gridIds cfgScan lScan) [0, 1, 2] lScan 0 0 =
      ([agScanE, agScanI1, agScanI2], 2, 2) := by
  rw [phaseA_cons cfgScan rndScan _ 0 _ lScan 0 0 agScan0 lScan_get0]
  simp only [agScan0_id]
  rw [decide_agScan0]
  rw [phaseA_cons cfgScan rndScan _ 1 _ _ _ _ agScan1 rfl]
  simp only [agScan1_id]
  rw [decide_agScan1]
  rw [phaseA_cons cfgScan rndScan _ 2 _ _ _ _ agScan2 rfl]
  simp only [agScan2_id]
  rw [decide_agScan2]
  rw [phaseA_nil]
  rfl

theorem move_agScan0 (ux uy : ℚ) :
    agScan0.move cfgScan.grid_size cfgScan.dt cfgScan.home_attraction cfgScan.random_force
      ux uy = agScan0 := by
  unfold Agent.move agScan0 cfgScan
  norm_num

theorem move_agScan1 (ux uy : ℚ) :
    agScan1.move cfgScan.grid_size cfgScan.dt cfgScan.home_attraction cfgScan.random_force
      ux uy = agScan1 := by
  unfold Agent.move agScan1 cfgScan
  norm_num

theorem move_agScan2 (ux uy : ℚ) :
    agScan2.move cfgScan.grid_size cfgScan.dt cfgScan.home_attraction cfgScan.random_force
      ux uy = agScan2 := by
  unfold Agent.move agScan2 cfgScan
  norm_num

theorem moved_scan : movedAgents rndScan simScan = lScan := by
  unfold movedAgents
  rw [show simScan.agents = lScan from rfl, show simScan.config = cfgScan from rfl]
  unfold lScan
  simp only [List.map_cons, List.map_nil]
  rw [move_agScan0, move_agScan1, move_agScan2]

theorem stepCounters_eq (rand : ℕ → AgentStepRand) (sim : Simulation) :
    stepCounters rand sim =
      (phaseA sim.config rand (gridIds sim.config (movedAgents rand sim))
        (List.range (movedAgents rand sim).length) (movedAgents rand sim) 0 0).2 := rfl

theorem stepSim_rt (rand : ℕ → AgentStepRand) (sim : Simulation) :
    (stepSim rand sim).rt_history = sim.rt_history ++
      [if 0 < (stepCounters rand sim).2 then
          ((stepCounters rand sim).1 : ℚ) / sim.config.dt / ((stepCounters rand sim).2 : ℚ)
            * sim.config.infectious_mean
        else 0] := rfl

theorem stepCounters_scan : stepCounters rndScan simScan = (2, 2) := by
  rw [stepCounters_eq, moved_scan]
  show (phaseA cfgScan rndScan (gridIds cfgScan lScan) (List.range lScan.length) lScan 0 0).2 =
    (2, 2)
  rw [show List.range lScan.length = [0, 1, 2] from rfl, phaseA_scan]

theorem stepSim_scan_agents :
    (stepSim rndScan simScan).agents =
      [commitAgent cfgScan.dt agScanE, commitAgent cfgScan.dt agScanI1,
        commitAgent cfgScan.dt agScanI2] := by
  rw [stepSim_agents, moved_scan]
  show (phaseA cfgScan rndScan (gridIds cfgScan lScan) (List.range lScan.length) lScan 0
    0).1.map (commitAgent cfgScan.dt) = _
  rw [show List.range lScan.length = [0, 1, 2] from rfl, phaseA_scan]
  rfl

/-- C3 (evidence of the code bug): a susceptible agent flanked by two
infectious neighbors in two different grid cells of the same scan column.
The first Bernoulli success (cell `(1,0)`, first sample giving timer 10)
does not short-circuit the whole neighbor scan: the remaining cells of the
current `dx` column are still scanned, a second success re-samples the
incubation timer (committed value 15) and increments the step-scoped
new-infection counter a second time, so `new_infections = 2` although
exactly one agent was newly infected, and the recorded Rt is `7` instead of
the `3.5` a single increment would give. -/
theorem transmission_scan_overcount :
    (stepCounters rndScan simScan).1 = 2 ∧
    countState (stepSim rndScan simScan).agents SState.E = 1 ∧
    ((stepSim rndScan simScan).agents.map (·.state_timer)) = [15, 9, 9] ∧
    (stepSim rndScan simScan).rt_history = [7] := by
  refine ⟨by rw [stepCounters_scan], ?_, ?_, ?_⟩
  · rw [stepSim_scan_agents]
    norm_num [countState, commitAgent, agScanE, agScanI1, agScanI2, agScan0, agScan1,
      agScan2, cfgScan, List.filter_cons]
    decide
  · rw [stepSim_scan_agents]
    norm_num [commitAgent, agScanE, agScanI1, agScanI2, agScan0, agScan1, agScan2, cfgScan]
    decide
  · rw [stepSim_rt, stepCounters_scan]
    norm_num [show simScan.rt_history = [] from rfl,
      show simScan.config.dt = 1 from rfl, show simScan.config.infectious_mean = 7 from rfl]


/-! ### Decide-loop order dependence (claim C2) -/

/-- The order-dependence scenario config. -/
def cfgOrd : SimulationConfig :=
  { N := 2, grid_size := 100, beta := 1, incubation_mean := 5, incubation_std := 0,
    infectious_mean := 7, infectious_std := 0, mortality_rate := 0, vax_rate := 0,
    interaction_radius := 2, dt := 1, home_attraction := 0, random_force := 0,
    isolation_compliance := 0, detection_prob := 0 }

def agOrdS : Agent :=
  { id := 0, x := 0, y := 0, vx := 0, vy := 0, home_x := 0, home_y := 0,
    state := SState.S }

def agOrdI : Agent :=
  { id := 1, x := 0, y := 0, vx := 0, vy := 0, home_x := 0, home_y := 0,
    state := SState.I, state_timer := 1/2, is_isolated := true }

def lOrd : List Agent := [agOrdS, agOrdI]

def rndOrd : ℕ → AgentStepRand := fun _ =>
  { vax_roll := 1/2, trans_roll := fun _ => 0, incub_z := fun _ => 0,
    mort_roll := 1/2, detect_roll := 1/2, comply_roll := 1/2 }

def agOrdI2 : Agent :=
  { agOrdI with next_state := SState.R, next_timer := 1/2 - 1, is_isolated := false }

def lOrd2 : List Agent := [agOrdS, agOrdI2]

theorem cellOf_ord : cellOf cfgOrd 0 0 = (0, 0) := by
  unfold cellOf cellSize ratTrunc cfgOrd
  norm_num

theorem gridOrd_mm : gridIds cfgOrd lOrd (-1, -1) = [] := by
  unfold gridIds lOrd
  rw [show List.range ([agOrdS, agOrdI] : List Agent).length = [0, 1] from rfl]
  norm_num [agOrdS, agOrdI, cellOf_ord, List.filter_cons] <;> decide

theorem gridOrd_m0 : gridIds cfgOrd lOrd (-1, 0) = [] := by
  unfold gridIds lOrd
  rw [show List.range ([agOrdS, agOrdI] : List Agent).length = [0, 1] from rfl]
  norm_num [agOrdS, agOrdI, cellOf_ord, List.filter_cons] <;> decide

theorem gridOrd_m1 : gridIds cfgOrd lOrd (-1, 1) = [] := by
  unfold gridIds lOrd
  rw [show List.range ([agOrdS, agOrdI] : List Agent).length = [0, 1] from rfl]
  norm_num [agOrdS, agOrdI, cellOf_ord, List.filter_cons] <;> decide

theorem gridOrd_0m : gridIds cfgOrd lOrd (0, -1) = [] := by
  unfold gridIds lOrd
  rw [show List.range ([agOrdS, agOrdI] : List Agent).length = [0, 1] from rfl]
  norm_num [agOrdS, agOrdI, cellOf_ord, List.filter_cons] <;> decide

theorem gridOrd_00 : gridIds cfgOrd lOrd (0, 0) = [0, 1] := by
  unfold gridIds lOrd
  rw [show List.range ([agOrdS, agOrdI] : List Agent).length = [0, 1] from rfl]
  norm_num [agOrdS, agOrdI, cellOf_ord, List.filter_cons] <;> decide

theorem gridOrd_01 : gridIds cfgOrd lOrd (0, 1) = [] := by
  unfold gridIds lOrd
  rw [show List.range ([agOrdS, agOrdI] : List Agent).length = [0, 1] from rfl]
  norm_num [agOrdS, agOrdI, cellOf_ord, List.filter_cons] <;> decide

theorem gridOrd_1m : gridIds cfgOrd lOrd (1, -1) = [] := by
  unfold gridIds lOrd
  rw [show List.range ([agOrdS, agOrdI] : List Agent).length = [0, 1] from rfl]
  norm_num [agOrdS, agOrdI, cellOf_ord, List.filter_cons] <;> decide

theorem gridOrd_10 : gridIds cfgOrd lOrd (1, 0) = [] := by
  unfold gridIds lOrd
  rw [show List.range ([agOrdS, agOrdI] : List Agent).length = [0, 1] from rfl]
  norm_num [agOrdS, agOrdI, cellOf_ord, List.filter_cons] <;> decide

theorem gridOrd_11 : gridIds cfgOrd lOrd (1, 1) = [] := by
  unfold gridIds lOrd
  rw [show List.range ([agOrdS, agOrdI] : List Agent).length = [0, 1] from rfl]
  norm_num [agOrdS, agOrdI, cellOf_ord, List.filter_cons] <;> decide

theorem gridOrd_00z : gridIds cfgOrd lOrd 0 = [0, 1] := gridOrd_00
theorem gridOrd_11z : gridIds cfgOrd lOrd 1 = [] := gridOrd_11

theorem cfgOrd_vax : cfgOrd.vax_rate = 0 := rfl
theorem cfgOrd_dt : cfgOrd.dt = 1 := rfl
theorem cfgOrd_beta : cfgOrd.beta = 1 := rfl
theorem cfgOrd_radius : cfgOrd.interaction_radius = 2 := rfl
theorem cfgOrd_incMean : cfgOrd.incubation_mean = 5 := rfl
theorem cfgOrd_incStd : cfgOrd.incubation_std = 0 := rfl

theorem agOrdS_id : agOrdS.id = 0 := rfl
theorem agOrdS_state : agOrdS.state = SState.S := rfl
theorem agOrdS_x : agOrdS.x = 0 := rfl
theorem agOrdS_y : agOrdS.y = 0 := rfl
theorem agOrdS_susc : agOrdS.susceptibility = 1 := rfl
theorem agOrdS_timer : agOrdS.state_timer = 0 := rfl
theorem agOrdS_iso : agOrdS.is_isolated = false := rfl
theorem agOrdS_inf : agOrdS.infectiousness = 1 := rfl
theorem agOrdI_id : agOrdI.id = 1 := rfl
theorem agOrdI_state : agOrdI.state = SState.I := rfl
theorem agOrdI_x : agOrdI.x = 0 := rfl
theorem agOrdI_y : agOrdI.y = 0 := rfl
theorem agOrdI_iso : agOrdI.is_isolated = true := rfl
theorem agOrdI_inf : agOrdI.infectiousness = 1 := rfl
theorem agOrdI2_state : agOrdI2.state = SState.I := rfl
theorem agOrdI2_x : agOrdI2.x = 0 := rfl
theorem agOrdI2_y : agOrdI2.y = 0 := rfl
theorem agOrdI2_iso : agOrdI2.is_isolated = false := rfl
theorem agOrdI2_inf : agOrdI2.infectiousness = 1 := rfl

theorem rndOrd_vax : (rndOrd 0).vax_roll = 1/2 := rfl
theorem rndOrd_trans (k : ℕ) : (rndOrd 0).trans_roll k = 0 := rfl
theorem rndOrd_incub (k : ℕ) : (rndOrd 0).incub_z k = 0 := rfl

theorem lOrd_get0 : lOrd[0]? = some agOrdS := rfl
theorem lOrd_get1 : lOrd[1]? = some agOrdI := rfl
theorem lOrd2_get0 : lOrd2[0]? = some agOrdS := rfl
theorem lOrd2_get1 : lOrd2[1]? = some agOrdI2 := rfl

theorem decide_agOrdS_iso :
    decideAgent cfgOrd (rndOrd 0) (gridIds cfgOrd lOrd) lOrd agOrdS = (agOrdS, 0, 0) := by
  unfold decideAgent
  norm_num [scanColumns, scanCell,
    gridOrd_mm, gridOrd_m0, gridOrd_m1, gridOrd_0m, gridOrd_00, gridOrd_01,
    gridOrd_1m, gridOrd_10, gridOrd_11, gridOrd_00z, gridOrd_11z,
    cellOf_ord, lOrd_get0, lOrd_get1,
    cfgOrd_vax, cfgOrd_dt, cfgOrd_beta, cfgOrd_radius, cfgOrd_incMean, cfgOrd_incStd,
    agOrdS_state, agOrdS_x, agOrdS_y, agOrdS_susc, agOrdS_timer, agOrdS_iso, agOrdS_inf,
    agOrdI_state, agOrdI_x, agOrdI_y, agOrdI_iso, agOrdI_inf,
    rndOrd_vax, rndOrd_trans, rndOrd_incub]
  decide

theorem decide_agOrdI (g : ℤ × ℤ → List ℕ) (l : List Agent) :
    decideAgent cfgOrd (rndOrd 1) g l agOrdI = (agOrdI2, 0, 1) := by
  unfold decideAgent agOrdI2 agOrdI cfgOrd rndOrd
  norm_num

theorem decide_agOrdS_open :
    decideAgent cfgOrd (rndOrd 0) (gridIds cfgOrd lOrd) lOrd2 agOrdS =
      ({ agOrdS with next_state := SState.E, next_timer := 5 }, 1, 0) := by
  unfold decideAgent
  norm_num [scanColumns, scanCell,
    gridOrd_mm, gridOrd_m0, gridOrd_m1, gridOrd_0m, gridOrd_00, gridOrd_01,
    gridOrd_1m, gridOrd_10, gridOrd_11, gridOrd_00z, gridOrd_11z,
    cellOf_ord, lOrd2_get0, lOrd2_get1,
    cfgOrd_vax, cfgOrd_dt, cfgOrd_beta, cfgOrd_radius, cfgOrd_incMean, cfgOrd_incStd,
    agOrdS_state, agOrdS_x, agOrdS_y, agOrdS_susc, agOrdS_timer, agOrdS_iso, agOrdS_inf,
    agOrdI2_state, agOrdI2_x, agOrdI2_y, agOrdI2_iso, agOrdI2_inf,
    rndOrd_vax, rndOrd_trans, rndOrd_incub]
  decide

theorem phaseA_ord01 :
    phaseA cfgOrd rndOrd (gridIds cfgOrd lOrd) [0, 1] lOrd 0 0 = (lOrd2, 0, 1) := by
  rw [phaseA_cons cfgOrd rndOrd _ 0 _ lOrd 0 0 agOrdS lOrd_get0]
  simp only [agOrdS_id]
  rw [decide_agOrdS_iso]
  rw [phaseA_cons cfgOrd rndOrd _ 1 _ _ _ _ agOrdI rfl]
  simp only [agOrdI_id]
  rw [decide_agOrdI]
  rw [phaseA_nil]
  rfl

theorem phaseA_ord10 :
    phaseA cfgOrd rndOrd (gridIds cfgOrd lOrd) [1, 0] lOrd 0 0 =
      ([{ agOrdS with next_state := SState.E, next_timer := 5 }, agOrdI2], 1, 1) := by
  rw [phaseA_cons cfgOrd rndOrd _ 1 _ lOrd 0 0 agOrdI lOrd_get1]
  simp only [agOrdI_id]
  rw [decide_agOrdI]
  rw [show lOrd.set 1 agOrdI2 = lOrd2 from rfl]
  rw [phaseA_cons cfgOrd rndOrd _ 0 _ lOrd2 _ _ agOrdS lOrd2_get0]
  simp only [agOrdS_id]
  rw [decide_agOrdS_open]
  rw [phaseA_nil]
  rfl

/-- C2 counterexample: with the same per-agent draws, an isolated
infectious agent whose timer expires this step is processed either after
the susceptible agent at its position (which then still sees it isolated
and stays susceptible) or before it (the eager `is_isolated = False` write
is then visible to the transmission check, which infects the susceptible
agent), so the pending decisions differ between the two processing
orders. -/
theorem phase_order_dependence :
    ((phaseA cfgOrd rndOrd (gridIds cfgOrd lOrd) [0, 1] lOrd 0 0).1.map (·.next_state) =
      [SState.S, SState.R]) ∧
    ((phaseA cfgOrd rndOrd (gridIds cfgOrd lOrd) [1, 0] lOrd 0 0).1.map (·.next_state) =
      [SState.E, SState.R]) ∧
    (phaseA cfgOrd rndOrd (gridIds cfgOrd lOrd) [0, 1] lOrd 0 0).1.map (·.next_state) ≠
      (phaseA cfgOrd rndOrd (gridIds cfgOrd lOrd) [1, 0] lOrd 0 0).1.map (·.next_state) := by
  refine ⟨?_, ?_, ?_⟩
  · rw [phaseA_ord01]
    rfl
  · rw [phaseA_ord10]
    rfl
  · rw [phaseA_ord01, phaseA_ord10]
    decide

theorem phaseA_cons_none (cfg : SimulationConfig) (rand : ℕ → AgentStepRand)
    (grid : ℤ × ℤ → List ℕ) (i : ℕ) (rest : List ℕ) (agents : List Agent) (ni ci : ℕ)
    (h : agents[i]? = none) :
    phaseA cfg rand grid (i :: rest) agents ni ci =
      phaseA cfg rand grid rest agents ni ci := by
  conv_lhs => rw [phaseA]
  rw [h]

/-- The decide loop writes only the processed agent's own fields: whatever
the processing order, an agent's committed state, timer, position and
heterogeneity scalars survive the whole loop unchanged. -/
theorem phaseA_committed (cfg : SimulationConfig) (rand : ℕ → AgentStepRand)
    (grid : ℤ × ℤ → List ℕ) :
    ∀ (order : List ℕ) (agents : List Agent) (ni ci i : ℕ) (a b : Agent),
      agents[i]? = some a →
      (phaseA cfg rand grid order agents ni ci).1[i]? = some b →
      b.state = a.state ∧ b.state_timer = a.state_timer ∧ b.x = a.x ∧ b.y = a.y ∧
        b.infectiousness = a.infectiousness ∧ b.susceptibility = a.susceptibility ∧
        b.id = a.id := by
  intro order
  induction order with
  | nil =>
    intro agents ni ci i a b hget hres
    rw [phaseA_nil] at hres
    obtain rfl : a = b := Option.some_inj.mp (hget.symm.trans hres)
    exact ⟨rfl, rfl, rfl, rfl, rfl, rfl, rfl⟩
  | cons j rest ih =>
    intro agents ni ci i a b hget hres
    cases hj : agents[j]? with
    | none =>
      rw [phaseA_cons_none cfg rand grid j rest agents ni ci hj] at hres
      exact ih agents ni ci i a b hget hres
    | some c =>
      rw [phaseA_cons cfg rand grid j rest agents ni ci c hj] at hres
      by_cases hij : i = j
      · subst hij
        obtain rfl : c = a := Option.some_inj.mp (hj.symm.trans hget)
        have hlt : i < agents.length := (List.getElem?_eq_some.mp hget).1
        have hmid := ih (agents.set i (decideAgent cfg (rand c.id) grid agents c).1)
          (ni + (decideAgent cfg (rand c.id) grid agents c).2.1)
          (ci + (decideAgent cfg (rand c.id) grid agents c).2.2) i
          (decideAgent cfg (rand c.id) grid agents c).1 b
          (List.getElem?_set_self (by simpa using hlt)) hres
        obtain ⟨m1, m2, m3, m4, m5, m6, m7⟩ := hmid
        obtain ⟨d1, d2, d3, d4, -, -, d7, d8, d9, -⟩ :=
          decideAgent_committed cfg (rand c.id) grid agents c
        exact ⟨m1.trans d1, m2.trans d2, m3.trans d3, m4.trans d4, m5.trans d7,
          m6.trans d8, m7.trans d9⟩
      · have hget2 : (agents.set j (decideAgent cfg (rand c.id) grid agents c).1)[i]? =
          some a := by
          rw [List.getElem?_set_ne (Ne.symm hij)]
          exact hget
        exact ih _ _ _ i a b hget2 hres

/-- C2 (amended): within one `step()` the decide loop never mutates any
agent's committed state, timer, position or heterogeneity scalars — the
fields a transmission check reads besides the isolation flag — and every
non-susceptible agent's decision ignores the threaded agent list entirely,
so it is processing-order independent.  The isolation flag itself, however,
is written during the decide loop (set on an E→I transition, cleared on an
expiring infectious agent) and read live by susceptible agents' transmission
checks, which is what makes a susceptible agent's pending decision
order-dependent (see the counterexample). -/
theorem phase_a_writes_only_self (cfg : SimulationConfig) (rand : ℕ → AgentStepRand)
    (grid : ℤ × ℤ → List ℕ) :
    (∀ (order : List ℕ) (agents : List Agent) (ni ci i : ℕ) (a b : Agent),
      agents[i]? = some a →
      (phaseA cfg rand grid order agents ni ci).1[i]? = some b →
      b.state = a.state ∧ b.state_timer = a.state_timer ∧ b.x = a.x ∧ b.y = a.y ∧
        b.infectiousness = a.infectiousness ∧ b.susceptibility = a.susceptibility ∧
        b.id = a.id) ∧
    (∀ (agents agents' : List Agent) (r : AgentStepRand) (a : Agent),
      a.state ≠ SState.S →
      decideAgent cfg r grid agents a = decideAgent cfg r grid agents' a) :=
  ⟨phaseA_committed cfg rand grid,
    fun l l' r a h => decideAgent_nonS cfg r grid l l' a h⟩

/-- Witness for C2's amended theorem at a one-agent decide loop. -/
theorem phase_a_writes_only_self_witness :
    (([dAgentW] : List Agent)[0]? = some dAgentW ∧
      (phaseA cfgW (srZero 0) gNil [0] [dAgentW] 0 0).1[0]? =
        some (decideAgent cfgW (srZero 0 0) gNil [dAgentW] dAgentW).1) ∧
    ((decideAgent cfgW (srZero 0 0) gNil [dAgentW] dAgentW).1.state = dAgentW.state ∧
      (decideAgent cfgW (srZero 0 0) gNil [dAgentW] dAgentW).1.state_timer =
        dAgentW.state_timer ∧
      (decideAgent cfgW (srZero 0 0) gNil [dAgentW] dAgentW).1.x = dAgentW.x ∧
      (decideAgent cfgW (srZero 0 0) gNil [dAgentW] dAgentW).1.y = dAgentW.y ∧
      (decideAgent cfgW (srZero 0 0) gNil [dAgentW] dAgentW).1.infectiousness =
        dAgentW.infectiousness ∧
      (decideAgent cfgW (srZero 0 0) gNil [dAgentW] dAgentW).1.susceptibility =
        dAgentW.susceptibility ∧
      (decideAgent cfgW (srZero 0 0) gNil [dAgentW] dAgentW).1.id = dAgentW.id) ∧
    agIsoE.state ≠ SState.S ∧
    decideAgent cfgW (srZero 0 0) gNil [] agIsoE =
      decideAgent cfgW (srZero 0 0) gNil [dAgentW] agIsoE :=
  ⟨⟨rfl, rfl⟩,
    (phase_a_writes_only_self cfgW (srZero 0) gNil).1 [0] [dAgentW] 0 0 0 dAgentW _ rfl rfl,
    by decide,
    (phase_a_writes_only_self cfgW (srZero 0) gNil).2 [] [dAgentW] (srZero 0 0) agIsoE
      (by decide)⟩


/-! ### Construction performs no validation (claim C4) -/

/-- A config the spec calls invalid on four counts: population 0,
mortality probability 2, infectious std 0, grid extent 0. -/
def cfgBad : SimulationConfig :=
  { N := 0, grid_size := 0, beta := 1, incubation_mean := 5, incubation_std := 2,
    infectious_mean := 7, infectious_std := 0, mortality_rate := 2, vax_rate := 0,
    interaction_radius := 2, dt := 1, home_attraction := 0, random_force := 0,
    isolation_compliance := 0, detection_prob := 0 }

/-- C4 counterexample: the constructor accepts `cfgBad` — a config the
claim says must be rejected with `InvalidConfig` — and builds a perfectly
ordinary (empty-population) simulation with its initial snapshot recorded;
no validation code exists in `__init__`. -/
theorem construction_validation_counterexample :
    ¬ specValidConfig cfgBad ∧
    (simInit cfgBad irZero).agents = [] ∧
    (∀ s, (simInit cfgBad irZero).stats s = [0]) ∧
    (simInit cfgBad irZero).rt_history = [0] := by
  refine ⟨fun h => ?_, rfl, fun s => rfl, rfl⟩
  exact absurd h.1 (by decide)

/-- C4 (amended): construction never fails and never validates — for every
config, valid or invalid by the spec's criteria, `__init__` builds its
`max(N, 0)` agents and records the step-0 snapshot. -/
theorem construction_no_validation (cfg : SimulationConfig) (ir : ℕ → AgentInitRand) :
    (simInit cfg ir).agents.length = cfg.N.toNat ∧
    (∀ s, ((simInit cfg ir).stats s).length = 1) ∧
    (simInit cfg ir).rt_history = [0] :=
  ⟨simInit_length cfg ir, fun s => by rw [simInit_stats]; rfl, rfl⟩

/-! ### Boundary reflection (claim C9) -/

/-- The agent of the spec's reflection scenario: just outside the lower
bound with inward-negative velocity. -/
def agBounce : Agent :=
  { id := 0, x := -1, y := 5, vx := -2, vy := 0, home_x := 0, home_y := 0,
    state := SState.S }

/-- C9 counterexample: with zero home attraction and random force, grid
size 100 and `dt = 1`, the agent at `x = -1` with `vx = -2` does not end at
`x = 1, vx = 2`: `move` first damps the velocity to `-1.9` and advances the
position to `-2.9` before bouncing, so it ends at `x = 2.9`, `vx = 1.9`. -/
theorem boundary_reflection_counterexample :
    (agBounce.move 100 1 0 0 0 0).x = 29 / 10 ∧
    (agBounce.move 100 1 0 0 0 0).vx = 19 / 10 ∧
    ¬ ((agBounce.move 100 1 0 0 0 0).x = 1 ∧ (agBounce.move 100 1 0 0 0 0).vx = 2) := by
  have hx : (agBounce.move 100 1 0 0 0 0).x = 29 / 10 := by
    unfold Agent.move agBounce
    norm_num
    rw [if_neg (by simp)]
  have hv : (agBounce.move 100 1 0 0 0 0).vx = 19 / 10 := by
    unfold Agent.move agBounce
    norm_num
    rw [if_neg (by simp)]
  refine ⟨hx, hv, fun h => ?_⟩
  rw [hx] at h
  exact absurd h.1 (by norm_num)

/-- C9 (amended): the reflecting rule holds for the post-integration
coordinates.  For a non-deceased, non-isolated agent, `move` first applies
home attraction and the random perturbation, damps the velocity by `0.95`,
and advances the position by `velocity × dt`; only then, per axis, a
coordinate below `0` is mirrored to its negation and one above `gridSize`
to `2·gridSize − pos`, with the velocity component's sign flipped, and a
coordinate inside `[0, gridSize]` is kept.  (In the spec's concrete
scenario the damping and integration run first, which is what the
counterexample records.) -/
theorem boundary_reflection (a : Agent) (gs dt ha rf ux uy : ℚ)
    (hD : a.state ≠ SState.D) (hiso : a.is_isolated = false) :
    ((a.move gs dt ha rf ux uy).x, (a.move gs dt ha rf ux uy).vx) =
      (let vxd := (a.vx + (a.home_x - a.x) * ha * dt + ux * rf * dt) * (95 / 100)
       let xi := a.x + vxd * dt
       if xi < 0 then (-xi, -vxd) else if xi > gs then (2 * gs - xi, -vxd) else (xi, vxd)) ∧
    ((a.move gs dt ha rf ux uy).y, (a.move gs dt ha rf ux uy).vy) =
      (let vyd := (a.vy + (a.home_y - a.y) * ha * dt + uy * rf * dt) * (95 / 100)
       let yi := a.y + vyd * dt
       if yi < 0 then (-yi, -vyd) else if yi > gs then (2 * gs - yi, -vyd) else (yi, vyd)) := by
  unfold Agent.move
  rw [if_neg (by simp [hD, hiso])]
  exact ⟨rfl, rfl⟩

/-- Witness for C9's amended theorem: the counterexample agent's step, with
its post-integration coordinate `-2.9` mirrored to `2.9`. -/
theorem boundary_reflection_witness :
    agBounce.state ≠ SState.D ∧ agBounce.is_isolated = false ∧
    (((agBounce.move 100 1 0 0 0 0).x, (agBounce.move 100 1 0 0 0 0).vx) =
      (let vxd := (agBounce.vx + (agBounce.home_x - agBounce.x) * 0 * 1 + 0 * 0 * 1) *
        (95 / 100)
       let xi := agBounce.x + vxd * 1
       if xi < 0 then (-xi, -vxd) else if xi > 100 then (2 * 100 - xi, -vxd)
       else (xi, vxd)) ∧
    ((agBounce.move 100 1 0 0 0 0).y, (agBounce.move 100 1 0 0 0 0).vy) =
      (let vyd := (agBounce.vy + (agBounce.home_y - agBounce.y) * 0 * 1 + 0 * 0 * 1) *
        (95 / 100)
       let yi := agBounce.y + vyd * 1
       if yi < 0 then (-yi, -vyd) else if yi > 100 then (2 * 100 - yi, -vyd)
       else (yi, vyd))) :=
  ⟨by decide, rfl, boundary_reflection agBounce 100 1 0 0 0 0 (by decide) rfl⟩

end Epidemic
